import Mathlib

/-!
# Verification of the kadem DHT implementation against its specification

This file gives a shallow embedding, in Lean 4, of the parts of the kadem
BitTorrent-DHT node (JavaScript) that the specification's claims talk about:

* the token store (`src/token-store.js`),
* the BEP-42 secure node-id derivation (`src/security.js`),
* the compact node-info codec and the KRPC ping bookkeeping (`src/index.js`),
* the routing table (routing module: `Node`, `Bucket`, `RoutingTable`),
* the iterative lookup engine (`DHT.prototype.closest_`),
* the BEP-44 storage extension's inbound put handler (`src/storage.js`).

Modelling conventions:

* A JS `Buffer` is a `List Nat` of byte values (each `< 256`; writes that the
  runtime truncates are modelled with explicit `% 256`).
* A JS string is a `List Nat` of UTF-16 code units.  JS relational operators
  (`<`, `<=`) applied to `Buffer`s coerce both sides with `toString()`, i.e.
  UTF-8 decoding with U+FFFD replacement; that coercion is modelled
  faithfully by `utf8DecodeJS` below, because the routing table compares
  node ids this way.
* `Date.now()` values and the host's random bytes are passed in as explicit
  parameters (`now`, oracles), making the embedded operations pure.
* SHA-1 and CRC32C, which the repository takes from `crypto` /`sse4_crc32`,
  are implemented concretely (full algorithms) so that claims about hashes
  can be evaluated; ed25519 stays an oracle parameter because only the
  boolean verdict of `verify` is ever consumed.
-/

/-- Truncation of a JS number that is stored into a `Uint8Array` slot
(`ToUint8`): truncate toward zero, then take the result modulo 256.
Inputs are modelled as `Int` because intermediate JS arithmetic can be
negative (e.g. `(d + 1 - min[i]) / 2` in `mid`). -/
def toUint8 (x : Int) : Nat := (x % 256).toNat

/-- JS division by 2 followed by `ToUint8` truncation toward zero, for the
exact values that occur in `mid` (`(d + 1 - min[i]) / 2` with integer `d`,
`min[i]`): the quotient is a multiple of one half, and JS truncates the
fractional part toward zero before the modulo. -/
def jsHalfTrunc (x : Int) : Int :=
  if 0 ≤ x then x / 2 else -((-x) / 2)

/-- UTF-16 code units for one decoded code point (surrogate pair above
the BMP), as V8 materialises them in a JS string. -/
def utf16Units (cp : Nat) : List Nat :=
  if cp < 0x10000 then [cp]
  else [0xD800 + (cp - 0x10000) / 0x400, 0xDC00 + (cp - 0x10000) % 0x400]

/-- Is `b` a UTF-8 continuation byte within `[lo, hi]`? -/
def utf8ContIn (lo hi b : Nat) : Bool := lo ≤ b && b ≤ hi

/-- Worker for `utf8DecodeJS`, recursing on explicit fuel so that the
definition reduces inside the kernel.  Every recursive call both consumes
fuel and strictly shortens the byte list, so fuel `= length of the input`
never runs out (the fuel-exhausted branch is unreachable). -/
def utf8DecodeCore : Nat → List Nat → List Nat
  | _, [] => []
  | 0, _ :: _ => []
  | fuel + 1, b :: rest =>
    if b ≤ 0x7F then b :: utf8DecodeCore fuel rest
    else if 0xC2 ≤ b && b ≤ 0xDF then
      match rest with
      | [] => [0xFFFD]
      | c1 :: r1 =>
        if utf8ContIn 0x80 0xBF c1 then
          utf16Units ((b % 0x20) * 0x40 + c1 % 0x40) ++ utf8DecodeCore fuel r1
        else 0xFFFD :: utf8DecodeCore fuel (c1 :: r1)
    else if 0xE0 ≤ b && b ≤ 0xEF then
      match rest with
      | [] => [0xFFFD]
      | d1 :: s1 =>
        if utf8ContIn (if b = 0xE0 then 0xA0 else 0x80)
                      (if b = 0xED then 0x9F else 0xBF) d1 then
          match s1 with
          | [] => [0xFFFD]
          | d2 :: s2 =>
            if utf8ContIn 0x80 0xBF d2 then
              utf16Units ((b % 0x10) * 0x1000 + (d1 % 0x40) * 0x40 + d2 % 0x40)
                ++ utf8DecodeCore fuel s2
            else 0xFFFD :: utf8DecodeCore fuel (d2 :: s2)
        else 0xFFFD :: utf8DecodeCore fuel (d1 :: s1)
    else if 0xF0 ≤ b && b ≤ 0xF4 then
      match rest with
      | [] => [0xFFFD]
      | e1 :: t1 =>
        if utf8ContIn (if b = 0xF0 then 0x90 else 0x80)
                      (if b = 0xF4 then 0x8F else 0xBF) e1 then
          match t1 with
          | [] => [0xFFFD]
          | e2 :: t2 =>
            if utf8ContIn 0x80 0xBF e2 then
              match t2 with
              | [] => [0xFFFD]
              | e3 :: t3 =>
                if utf8ContIn 0x80 0xBF e3 then
                  utf16Units ((b % 8) * 0x40000 + (e1 % 0x40) * 0x1000 +
                      (e2 % 0x40) * 0x40 + e3 % 0x40) ++ utf8DecodeCore fuel t3
                else 0xFFFD :: utf8DecodeCore fuel (e3 :: t3)
            else 0xFFFD :: utf8DecodeCore fuel (e2 :: t2)
        else 0xFFFD :: utf8DecodeCore fuel (e1 :: t1)
    else 0xFFFD :: utf8DecodeCore fuel rest

/-- `Buffer.prototype.toString()` (UTF-8 decode) as performed by Node when a
`Buffer` is coerced to a string by a relational operator: the WHATWG UTF-8
decoder, emitting U+FFFD for each maximal invalid subpart, producing UTF-16
code units.  Dispatch on the lead byte, then consume the required
continuation bytes; on an invalid continuation byte the offending byte is
reprocessed as a fresh lead byte. -/
def utf8DecodeJS (l : List Nat) : List Nat := utf8DecodeCore l.length l

/-- Lexicographic `<` on UTF-16 code-unit sequences: JS string comparison. -/
def jsUnitsLt : List Nat → List Nat → Bool
  | [], [] => false
  | [], _ :: _ => true
  | _ :: _, [] => false
  | a :: as, b :: bs => if a < b then true else if b < a then false else jsUnitsLt as bs

/-- The JS expression `bufA < bufB` on two `Buffer`s: both sides are coerced
with `toString()` (UTF-8 decode) and the strings compared code unit by code
unit. -/
def bufLtJS (a b : List Nat) : Bool := jsUnitsLt (utf8DecodeJS a) (utf8DecodeJS b)

/-- The JS expression `bufA <= bufB` on two `Buffer`s (`¬ (b < a)`). -/
def bufLeJS (a b : List Nat) : Bool := ! bufLtJS b a

/-- `Buffer.prototype.equals`: byte-for-byte equality. -/
def bufEquals (a b : List Nat) : Bool := a == b

/-! ## SHA-1 (the `crypto` dependency, implemented concretely) -/

/-- 32-bit left rotation. -/
def rotl32 (n x : Nat) : Nat :=
  ((x * 2 ^ n) % 2 ^ 32) + (x / 2 ^ (32 - n))

/-- 32-bit bitwise complement. -/
def not32 (x : Nat) : Nat := 0xFFFFFFFF ^^^ x

/-- SHA-1 message schedule: extend the 16 block words to 80 words,
`W[t] = rotl1 (W[t-3] xor W[t-8] xor W[t-14] xor W[t-16])`. -/
def sha1ExtendW : Nat → List Nat → List Nat
  | 0, ws => ws
  | n + 1, ws =>
    let L := ws.length
    sha1ExtendW n (ws ++ [rotl32 1 (ws.getD (L - 3) 0 ^^^ ws.getD (L - 8) 0 ^^^
      ws.getD (L - 14) 0 ^^^ ws.getD (L - 16) 0)])

/-- One SHA-1 round for round index `t` (selects `f` and `K` by `t / 20`). -/
def sha1Round (t w : Nat) : Nat × Nat × Nat × Nat × Nat → Nat × Nat × Nat × Nat × Nat
  | (a, b, c, d, e) =>
    let f :=
      if t < 20 then (b &&& c) ||| (not32 b &&& d)
      else if t < 40 then b ^^^ c ^^^ d
      else if t < 60 then (b &&& c) ||| (b &&& d) ||| (c &&& d)
      else b ^^^ c ^^^ d
    let k :=
      if t < 20 then 0x5A827999
      else if t < 40 then 0x6ED9EBA1
      else if t < 60 then 0x8F1BBCDC
      else 0xCA62C1D6
    let temp := (rotl32 5 a + f + e + k + w) % 2 ^ 32
    (temp, a, rotl32 30 b, c, d)

/-- Run the 80 SHA-1 rounds over the extended schedule. -/
def sha1Rounds : Nat → List Nat → Nat × Nat × Nat × Nat × Nat → Nat × Nat × Nat × Nat × Nat
  | _, [], s => s
  | t, w :: ws, s => sha1Rounds (t + 1) ws (sha1Round t w s)

/-- Compress one 16-word block into the running hash state. -/
def sha1Block (h : Nat × Nat × Nat × Nat × Nat) (block : List Nat) :
    Nat × Nat × Nat × Nat × Nat :=
  let (h0, h1, h2, h3, h4) := h
  let (a, b, c, d, e) := sha1Rounds 0 (sha1ExtendW 64 block) (h0, h1, h2, h3, h4)
  ((h0 + a) % 2 ^ 32, (h1 + b) % 2 ^ 32, (h2 + c) % 2 ^ 32,
   (h3 + d) % 2 ^ 32, (h4 + e) % 2 ^ 32)

/-- Group a byte list into big-endian 32-bit words (length must be a
multiple of 4, which the SHA-1 padding guarantees). -/
def bytesToWordsBE : List Nat → List Nat
  | b0 :: b1 :: b2 :: b3 :: rest =>
    (b0 * 0x1000000 + b1 * 0x10000 + b2 * 0x100 + b3) :: bytesToWordsBE rest
  | _ => []

/-- Group a word list into 16-word blocks (the padded SHA-1 message is
always a whole number of blocks, so the trailing short-block case is never
reached on padded input). -/
def wordsToBlocks : List Nat → List (List Nat)
  | [] => []
  | w0 :: w1 :: w2 :: w3 :: w4 :: w5 :: w6 :: w7 ::
    w8 :: w9 :: w10 :: w11 :: w12 :: w13 :: w14 :: w15 :: rest =>
    [w0, w1, w2, w3, w4, w5, w6, w7, w8, w9, w10, w11, w12, w13, w14, w15] ::
      wordsToBlocks rest
  | ws => [ws]

/-- SHA-1 padding: append `0x80`, zeros to 56 mod 64, then the 64-bit
big-endian bit length. -/
def sha1Pad (msg : List Nat) : List Nat :=
  let L := msg.length
  let zeros := (64 + 55 - (L % 64)) % 64
  let bitLen := L * 8
  msg ++ [0x80] ++ List.replicate zeros 0 ++
    [bitLen / 2 ^ 56 % 256, bitLen / 2 ^ 48 % 256, bitLen / 2 ^ 40 % 256,
     bitLen / 2 ^ 32 % 256, bitLen / 2 ^ 24 % 256, bitLen / 2 ^ 16 % 256,
     bitLen / 2 ^ 8 % 256, bitLen % 256]

/-- Serialize a 32-bit word to 4 big-endian bytes. -/
def word32ToBytesBE (w : Nat) : List Nat :=
  [w / 2 ^ 24 % 256, w / 2 ^ 16 % 256, w / 2 ^ 8 % 256, w % 256]

/-- SHA-1 of a byte list, as a 20-byte digest (the `sha1` helper in the
repository's util module, backed there by `crypto.createHash('sha1')`). -/
def sha1 (msg : List Nat) : List Nat :=
  let blocks := wordsToBlocks (bytesToWordsBE (sha1Pad msg))
  let (h0, h1, h2, h3, h4) :=
    blocks.foldl sha1Block (0x67452301, 0xEFCDAB89, 0x98BADCFE, 0x10325476, 0xC3D2E1F0)
  word32ToBytesBE h0 ++ word32ToBytesBE h1 ++ word32ToBytesBE h2 ++
    word32ToBytesBE h3 ++ word32ToBytesBE h4

/-! ## CRC32C (the `sse4_crc32` dependency, implemented concretely) -/

/-- One bit step of the reflected CRC32C computation (polynomial
`0x82F63B78`). -/
def crc32cBit (c : Nat) : Nat :=
  if c % 2 = 1 then (c / 2) ^^^ 0x82F63B78 else c / 2

/-- Fold one byte into the CRC32C accumulator (8 bit steps). -/
def crc32cByte (crc b : Nat) : Nat :=
  crc32cBit (crc32cBit (crc32cBit (crc32cBit
    (crc32cBit (crc32cBit (crc32cBit (crc32cBit (crc ^^^ b % 256))))))))

/-- `crc32c.calculate(buf, 0)`: standard CRC32C (Castagnoli) of a byte list
with initial value 0 (pre/post inverted accumulator). -/
def crc32c (data : List Nat) : Nat :=
  (data.foldl crc32cByte (not32 0)) ^^^ 0xFFFFFFFF

/-! ## Node info and small helpers -/

/-- A `NodeInfo` as the repository passes it around: node id (`Buffer`),
the transport address *string* (stored here as its UTF-8/ASCII bytes),
UDP port, and the optional write token attached by a `get`/`get_peers`
response. -/
structure NodeInfo where
  id : List Nat
  address : List Nat
  port : Nat
  token : Option (List Nat) := none
  deriving Repr, DecidableEq

/-- The bytes of a (pure-ASCII) Lean string, for writing concrete JS strings
such as IP addresses. -/
def asciiBytes (s : String) : List Nat := s.toList.map Char.toNat

/-- Worker for `decDigits` (explicit fuel keeps it kernel-reducible; the
fuel `n + 1` always suffices since the argument at least halves). -/
def decDigitsCore : Nat → Nat → List Nat
  | 0, _ => []
  | fuel + 1, n =>
    if n < 10 then [48 + n] else decDigitsCore fuel (n / 10) ++ [48 + n % 10]

/-- Decimal digits (ASCII codes) of a natural number, as JS number-to-string
conversion produces them. -/
def decDigits (n : Nat) : List Nat := decDigitsCore (n + 1) n

/-- Numeric value of a list of ASCII decimal digits (the behaviour of
`parseInt(s, 10)` / `ToNumber` on an all-digit string; theorems restrict to
all-digit inputs by hypothesis). -/
def parseDecDigits (l : List Nat) : Nat := l.foldl (fun a c => a * 10 + (c - 48)) 0

/-- `s.split('.')` on a JS string given as a byte list (`.` = byte 46). -/
def splitDots : List Nat → List (List Nat)
  | [] => [[]]
  | c :: rest =>
    if c = 46 then [] :: splitDots rest
    else
      match splitDots rest with
      | h :: t => (c :: h) :: t
      | [] => [[c]]

/-! ## Token store (`src/token-store.js`) -/

/-- `TokenStore.prototype.getWriteToken`: the write token the store issues
for a target hash and a requesting node.  The source computes
`sha1(target ++ node.address)` — note that the rotating `secret_` field the
constructor creates (and refreshes every 10 minutes) is *not* an input. -/
def getWriteToken (target : List Nat) (node : NodeInfo) : List Nat :=
  sha1 (target ++ node.address)

/-- `TokenStore.prototype.verifyToken`: `token.equals(getWriteToken(target, node))`. -/
def verifyToken (token target : List Nat) (node : NodeInfo) : Bool :=
  bufEquals token (getWriteToken target node)

/-- Modelled from the spec (not from the source, for comparison with
`getWriteToken`): "Write token: SHA-1(target ‖ requester-IP ‖
rotating-secret)", the secret being the store's current 10 random bytes. -/
def specWriteTokenWithSecret (target : List Nat) (node : NodeInfo) (secret : List Nat) : List Nat :=
  sha1 (target ++ node.address ++ secret)

/-- A record held by the token store's value cache, shaped as the storage
extension stores it (`{k?, seq, sig?, salt?, v}` for mutable, `{v}` for
immutable). -/
structure StoreRecord where
  k : Option (List Nat) := none
  seq : Nat := 0
  sig : Option (List Nat) := none
  salt : Option (List Nat) := none
  v : List Nat
  deriving Repr, DecidableEq

/-- The token store's value cache, keyed by the target hash (the source keys
by `target.toString('hex')`, which is injective on byte lists; the LRU
capacity of 500 and the 2-hour age eviction are time/size behaviours not
exercised by the claims and are not modelled). -/
abbrev TSStore := List (List Nat × StoreRecord)

/-- `TokenStore.prototype.get`. -/
def tokenStoreGet (store : TSStore) (target : List Nat) : Option StoreRecord :=
  (store.find? (fun e => e.1 == target)).map (·.2)

/-- Replace-or-append for the cache map (`this.store_.set(key, value)`). -/
def tsPut : TSStore → List Nat → StoreRecord → TSStore
  | [], k, v => [(k, v)]
  | e :: rest, k, v => if e.1 == k then (k, v) :: rest else e :: tsPut rest k v

/-- `TokenStore.prototype.set`: verify the token, and only on success store
the value; returns whether the write happened together with the new store. -/
def tokenStoreSet (store : TSStore) (target : List Nat) (value : StoreRecord)
    (node : NodeInfo) (token : List Nat) : Bool × TSStore :=
  if verifyToken token target node then (true, tsPut store target value)
  else (false, store)

/-! ## BEP-42 secure node id (`src/security.js`) -/

/-- `ToUint8(ToNumber(part))` for one component of `ipaddr.split('.')`, as
`Buffer.from(array-of-strings)` coerces it; faithful for all-digit
components (non-numeric components, which give `NaN → 0`, are excluded by
hypothesis in the theorems). -/
def jsStrToUint8 (p : List Nat) : Nat := parseDecDigits p % 256

/-- `computeSecureNodeId(ipaddr, r)` with the `Math.random()`-based byte
stream passed in explicitly: `rnd 0` is the `rand()` call filling the low
3 bits of byte 2, and `rnd 1 .. rnd 16` fill bytes 3..18.  The `r`
parameter is the caller-supplied `opt_rand`. -/
def computeSecureNodeId (ipaddr : List Nat) (r : Nat) (rnd : Nat → Nat) : List Nat :=
  let parts := splitDots ipaddr
  let bytes := parts.map jsStrToUint8
  let ip := bytes.getD 0 0 * 0x1000000 + bytes.getD 1 0 * 0x10000 +
            bytes.getD 2 0 * 0x100 + bytes.getD 3 0
  let ip32 := (ip &&& 0x030f3fff) ||| ((r <<< 29) % 2 ^ 32)
  let c := crc32c (word32ToBytesBE ip32)
  [(c >>> 24) &&& 0xff, (c >>> 16) &&& 0xff, ((c >>> 8) &&& 0xf8) ||| (rnd 0 &&& 0x7)]
    ++ (List.range 16).map (fun i => rnd (i + 1) % 256) ++ [r % 256]

/-! ## Compact node info codec (KRPC module in `src/index.js`) -/

/-- The dotted-quad string (as bytes) built from four numeric components,
as `decodeCompactNodeInfo` builds it with `+ '.' +`. -/
def ipDotted (a b c d : Nat) : List Nat :=
  decDigits a ++ [46] ++ decDigits b ++ [46] ++ decDigits c ++ [46] ++ decDigits d

/-- `encodeCompactNodeInfo`: a 26-byte buffer — the node id copied into
bytes 0..19 (`Buffer.alloc` zero-fills when the id is short), the four
octets of the dotted-quad address, and the big-endian 16-bit port.
`writeUInt8`/`writeUInt16BE` range checks are the theorems' hypotheses;
the stored bytes are written modulo 256 here to stay total. -/
def encodeCompactNodeInfo (node : NodeInfo) : List Nat :=
  let idPart := (node.id ++ List.replicate 20 0).take 20
  let ipParts := (splitDots node.address).map parseDecDigits
  idPart ++
    [ipParts.getD 0 0 % 256, ipParts.getD 1 0 % 256,
     ipParts.getD 2 0 % 256, ipParts.getD 3 0 % 256] ++
    [node.port / 256 % 256, node.port % 256]

/-- `decodeCompactNodeInfo`: id = bytes 0..19, address = dotted quad from
bytes 20..23, port = big-endian 16-bit from bytes 24..25. -/
def decodeCompactNodeInfo (buf : List Nat) : NodeInfo :=
  { id := buf.take 20,
    address := ipDotted (buf.getD 20 0) (buf.getD 21 0) (buf.getD 22 0) (buf.getD 23 0),
    port := buf.getD 24 0 * 256 + buf.getD 25 0,
    token := none }

/-! ## `DHT.prototype.ping` pending-ping bookkeeping (`src/index.js`) -/

/-- The key under which a pending ping is registered:
`` `${peer.address}:${peer.port}` ``. -/
def pingKey (address : List Nat) (port : Nat) : List Nat :=
  address ++ [58] ++ decDigits port

/-- `this.pendingPings_`: the map from ping keys to the shared in-flight
query (represented by an opaque transaction handle). -/
structure PingBook where
  pending : List (List Nat × Nat)
  deriving Repr, DecidableEq

/-- `DHT.prototype.ping`: if a ping to the same `(address, port)` is still
pending, return the stored promise and send nothing; otherwise register and
send a fresh `ping` query (`freshTid` is the handle the RPC layer would
allocate).  Returns (handle of the promise returned to the caller, updated
book, whether a new query was sent). -/
def dhtPing (book : PingBook) (address : List Nat) (port : Nat) (freshTid : Nat) :
    Nat × PingBook × Bool :=
  match book.pending.find? (fun e => e.1 == pingKey address port) with
  | some e => (e.2, book, false)
  | none => (freshTid, ⟨book.pending ++ [(pingKey address port, freshTid)]⟩, true)

/-- The `.then` attached by `ping`: once the underlying query settles, its
key is deleted from `pendingPings_`. -/
def pingSettled (book : PingBook) (address : List Nat) (port : Nat) : PingBook :=
  ⟨book.pending.filter (fun e => !(e.1 == pingKey address port))⟩

/-! ## Fixed-size priority queue (`PQueue` in the util module) -/

/-- One slot of the `PQueue` backing array: `[Infinity, null]` initially
(`none` priority = `Infinity`, `none` value = `null`). -/
abbrev PQSlot (α : Type) := Option Nat × Option α

/-- The `push` scan: find the first slot whose priority exceeds `n`, splice
the new entry in there and pop the last slot; if no slot is beaten the item
is dropped (the loop runs off the fixed length). -/
def pqInsert {α : Type} (n : Nat) (v : α) : List (PQSlot α) → List (PQSlot α)
  | [] => []
  | (p, w) :: rest =>
    if (match p with | none => true | some m => n < m) then
      ((some n, some v) :: (p, w) :: rest).dropLast
    else (p, w) :: pqInsert n v rest

/-- A fresh `new PQueue(fixedLen)`: `fixedLen` slots of `[Infinity, null]`. -/
def pqInit (α : Type) (fixedLen : Nat) : List (PQSlot α) :=
  List.replicate fixedLen (none, none)

/-- `get max()`: the priority in the final slot (`none` = `Infinity`). -/
def pqMax {α : Type} (arr : List (PQSlot α)) : Option Nat :=
  (arr.getD (arr.length - 1) (none, none)).1

/-- The comparison `n < closest.max` used by the lookup engine
(`n < Infinity` is true). -/
def pqLtMax {α : Type} (n : Nat) (arr : List (PQSlot α)) : Bool :=
  match pqMax arr with
  | none => true
  | some m => n < m

/-- `items()`: the non-`null` values in slot order. -/
def pqItems {α : Type} (arr : List (PQSlot α)) : List α :=
  arr.filterMap (·.2)

/-! ## Routing table (routing module: `Node`, `Bucket`, `RoutingTable`) -/

/-- `GOODNESS_TIMEOUT` (15 minutes in ms). -/
def GOODNESS_TIMEOUT : Nat := 15 * 60 * 1000

/-- A routing-table contact (`class Node`): id, transport address, optional
write token, and the liveness bookkeeping fields (`null` timestamps are
`none`). -/
structure RNode where
  id : List Nat
  address : List Nat
  port : Nat
  token : Option (List Nat) := none
  lastResponse : Option Nat := none
  lastReceivedQuery : Option Nat := none
  failedResponses : Nat := 0
  deriving Repr, DecidableEq

/-- `new Node(nodeInfo)`. -/
def RNode.ofInfo (ni : NodeInfo) : RNode :=
  { id := ni.id, address := ni.address, port := ni.port, token := ni.token }

/-- `Node.prototype.toNodeInfo`. -/
def RNode.toNodeInfo (n : RNode) : NodeInfo :=
  { id := n.id, address := n.address, port := n.port, token := n.token }

/-- JS truthiness of a nullable timestamp (`null` and `0` are falsy). -/
def jsTruthyTime : Option Nat → Bool
  | none => false
  | some t => t ≠ 0

/-- `get isGood()`: ever responded (truthily), fewer than 3 failures, and
seen within the last 15 minutes (response, or truthy query time).  The JS
comparison `t >= now - GOODNESS_TIMEOUT` is rendered as
`t + GOODNESS_TIMEOUT ≥ now`, identical over the integers and total on
`Nat`. -/
def RNode.isGood (now : Nat) (n : RNode) : Bool :=
  jsTruthyTime n.lastResponse && decide (n.failedResponses < 3) &&
    (decide (n.lastResponse.getD 0 + GOODNESS_TIMEOUT ≥ now) ||
     (jsTruthyTime n.lastReceivedQuery &&
      decide (n.lastReceivedQuery.getD 0 + GOODNESS_TIMEOUT ≥ now)))

/-- `get isBad()`: `failedResponses >= SILENCE_BEFORE_BAD` (3). -/
def RNode.isBad (n : RNode) : Bool := 3 ≤ n.failedResponses

/-- The bucket trie (`class Bucket`).  In the source a bucket always carries
a `contacts` array — `_split` resets the parent's array to `[]` but does not
remove it — so inner buckets have contact lists too, and the insertion walk
checks `contacts.length < K` *before* checking for children. -/
inductive BucketT where
  | leaf (mn mx : List Nat) (lastChanged : Nat) (contacts : List RNode)
  | node (mn mx : List Nat) (lastChanged : Nat) (contacts : List RNode) (l r : BucketT)
  deriving Repr, DecidableEq

/-- The direct contact list of a bucket. -/
def BucketT.contacts : BucketT → List RNode
  | .leaf _ _ _ cs => cs
  | .node _ _ _ cs _ _ => cs

/-- All contacts in the subtree (the part of `_nodeMap` living under this
bucket; the map and the trie are kept in sync by the source's
`push`/`_evict`). -/
def BucketT.allContacts : BucketT → List RNode
  | .leaf _ _ _ cs => cs
  | .node _ _ _ cs l r => cs ++ l.allContacts ++ r.allContacts

/-- `this._nodeMap[id]` lookup (keyed by the hex string of the id, which is
injective on byte lists). -/
def BucketT.findNode (t : BucketT) (id : List Nat) : Option RNode :=
  t.allContacts.find? (fun n => n.id == id)

/-- Remove the first contact with the given id (`_evict`'s
`splice(indexOf(node), 1)`; ids are unique in the table). -/
def removeById : List RNode → List Nat → List RNode
  | [], _ => []
  | x :: xs, i => if x.id == i then xs else x :: removeById xs i

/-- Update the contact with the given id inside a contact list. -/
def updateById (cs : List RNode) (i : List Nat) (f : RNode → RNode) : List RNode :=
  cs.map fun n => if n.id == i then f n else n

/-- Apply `f` to the contact with the given id, wherever it sits in the
trie (the JS code mutates the shared `Node` object through `_nodeMap`). -/
def BucketT.updateNode (id : List Nat) (f : RNode → RNode) : BucketT → BucketT
  | .leaf mn mx lc cs => .leaf mn mx lc (updateById cs id f)
  | .node mn mx lc cs l r =>
    .node mn mx lc (updateById cs id f) (l.updateNode id f) (r.updateNode id f)

/-- `mid(min, max)`: the byte-wise "midpoint".  The source maps
`(d, i) => (d + 1 - min[i]) / 2` over `max` (each result truncated into a
`Uint8` slot) and then maps `(d, i) => d + min[i]` over that buffer (again
truncated).  Both maps are over buffers of `max`'s length; the routing table
only ever calls this with two 20-byte bounds, and the `zipWith` below is
exact for equal lengths. -/
def mid (mn mx : List Nat) : List Nat :=
  let h := List.zipWith (fun d m => toUint8 (jsHalfTrunc ((d : Int) + 1 - (m : Int)))) mx mn
  List.zipWith (fun d m => toUint8 ((d : Int) + (m : Int))) h mn

/-- `distance(firstId, secondId)`: big-endian numeric value of the byte-wise
XOR, padding the shorter id with `0xff` bytes.  The source accumulates this
in a JS double (losing low-bit precision beyond 2^53); the model keeps the
exact integer — none of the verified claims depends on that rounding. -/
def distance (firstId secondId : List Nat) : Nat :=
  let m := min firstId.length secondId.length
  let first := (List.range m).foldl
    (fun d i => d * 256 + (firstId.getD i 0 ^^^ secondId.getD i 0)) 0
  (List.range (max firstId.length secondId.length - m)).foldl
    (fun d _ => d * 256 + 255) first

/-- `_split`: compute the midpoint; fail (`none`) when it coincides with
either bound; otherwise build the two child leaves (`lastChanged = now` via
the `Bucket` constructor), distributing each contact to the left child
exactly when `node.id < c` in JS's string-coerced buffer order, and empty
the parent's contact array. -/
def bucketSplit (mn mx : List Nat) (lc now : Nat) (cs : List RNode) : Option BucketT :=
  let c := mid mn mx
  if bufEquals c mn || bufEquals c mx then none
  else
    some (.node mn mx lc []
      (.leaf mn c now (cs.filter fun n => bufLtJS n.id c))
      (.leaf c mx now (cs.filter fun n => !bufLtJS n.id c)))

/-- The sequential ping-and-evict loop at the end of `_insertNode`.  `queue`
is the sorted snapshot of unknown contacts (by id); `pingO` answers one
`ping` event: `some b` means the host called the callback with `b` within
the 5-second deadline (the callback then updates the pinged contact's
fields), `none` means the deadline fired (`resolve(false)` without touching
the contact).  Returns the contact list, the bucket's `lastChanged`, and the
ids pinged, in order. -/
def pingEvictLoop (newNode : RNode) (now : Nat) (pingO : List Nat → Option Bool) :
    List (List Nat) → List RNode → Nat → List (List Nat) →
    List RNode × Nat × List (List Nat)
  | [], cs, lc, pinged => (cs, lc, pinged)
  | cid :: queue, cs, _lc, pinged =>
    match pingO cid with
    | some true =>
      -- responded: callback sets lastResponse/failedResponses, loop
      -- refreshes the bucket and moves on
      pingEvictLoop newNode now pingO queue
        (updateById cs cid fun n => { n with lastResponse := some now, failedResponses := 0 })
        now (pinged ++ [cid])
    | some false =>
      -- explicit "no" from the host: callback bumps failedResponses,
      -- then the contact is evicted and the new node inserted
      (removeById (updateById cs cid fun n =>
         { n with failedResponses := n.failedResponses + 1 }) cid ++ [newNode],
       now, pinged ++ [cid])
    | none =>
      -- 5-second deadline: resolve(false) without mutating the contact
      (removeById cs cid ++ [newNode], now, pinged ++ [cid])

/-- `(a.lastResponse || 0)` sort key of the eviction candidates. -/
def lastResponseKey (n : RNode) : Nat := n.lastResponse.getD 0

/-- `_insertNode`'s trie walk (the `while (bucket)` loop), on explicit fuel
(each split of a 160-bit range terminates, but not structurally).  Returns
the updated bucket and the ids pinged during eviction. -/
def insertLoop (K : Nat) (localId : List Nat) (nd : RNode) (now : Nat)
    (pingO : List Nat → Option Bool) : Nat → BucketT → Option (BucketT × List (List Nat))
  | 0, _ => none
  | fuel + 1, bucket =>
    -- `if (bucket.contacts && bucket.contacts.length < this._K)`:
    -- the contacts array always exists, so only the length gate matters
    if bucket.contacts.length < K then
      some (match bucket with
        | .leaf mn mx _ cs => .leaf mn mx now (cs ++ [nd])
        | .node mn mx _ cs l r => .node mn mx now (cs ++ [nd]) l r, [])
    else
      match bucket with
      | .node mn mx lc cs l r =>
        -- `bucket = (node.id <= bucket.left.max) ? bucket.left : bucket.right`
        if bufLeJS nd.id (match l with | .leaf _ mx2 _ _ => mx2 | .node _ mx2 _ _ _ _ => mx2) then
          (insertLoop K localId nd now pingO fuel l).map
            fun p => (.node mn mx lc cs p.1 r, p.2)
        else
          (insertLoop K localId nd now pingO fuel r).map
            fun p => (.node mn mx lc cs l p.1, p.2)
      | .leaf mn mx lc cs =>
        -- `if (bucket.min <= this.localId && this.localId < bucket.max)`
        -- then try to split and continue into the matching child
        match
          (if bufLeJS mn localId && bufLtJS localId mx then
            bucketSplit mn mx lc now cs
          else none) with
        | some (.node mn2 mx2 lc2 cs2 l r) =>
          if bufLtJS nd.id (match l with | .leaf _ c _ _ => c | .node _ c _ _ _ _ => c) then
            (insertLoop K localId nd now pingO fuel l).map
              fun p => (.node mn2 mx2 lc2 cs2 p.1 r, p.2)
          else
            (insertLoop K localId nd now pingO fuel r).map
              fun p => (.node mn2 mx2 lc2 cs2 l p.1, p.2)
        | some b => some (b, [])  -- unreachable: bucketSplit only builds nodes
        | none =>
          -- eviction proceedings: first bad contact is replaced outright
          match cs.find? RNode.isBad with
          | some badnode =>
            some (.leaf mn mx now (removeById cs badnode.id ++ [nd]), [])
          | none =>
            let unknown := cs.filter fun c => !c.isGood now
            if unknown.isEmpty then
              some (.leaf mn mx lc cs, [])  -- all good: discard the new node
            else
              let sorted := unknown.mergeSort fun a b => lastResponseKey a ≤ lastResponseKey b
              let (cs2, lc2, pinged) :=
                pingEvictLoop nd now pingO (sorted.map (·.id)) cs lc []
              some (.leaf mn mx lc2 cs2, pinged)

/-- The routing table's state: local id, `K`, and the bucket trie. -/
structure RoutingTable where
  localId : List Nat
  K : Nat
  root : BucketT
  deriving Repr, DecidableEq

/-- `recordResponse(nodeInfo)`: refresh an existing contact's
`lastResponse` and reset its failure count, or insert a fresh contact whose
`lastResponse` is `now`.  Returns the table and the ids pinged. -/
def recordResponse (rt : RoutingTable) (ni : NodeInfo) (now : Nat)
    (pingO : List Nat → Option Bool) (fuel : Nat) :
    Option (RoutingTable × List (List Nat)) :=
  match rt.root.findNode ni.id with
  | some _ =>
    let root2 := rt.root.updateNode ni.id
      (fun n => { n with lastResponse := some now, failedResponses := 0 })
    some ({ rt with root := root2 }, [])
  | none =>
    (insertLoop rt.K rt.localId { RNode.ofInfo ni with lastResponse := some now }
        now pingO fuel rt.root).map
      fun p => ({ rt with root := p.1 }, p.2)

/-- `recordNoResponse(nodeInfo)`: bump the failure counter of an existing
contact; unknown ids are ignored. -/
def recordNoResponse (rt : RoutingTable) (ni : NodeInfo) : RoutingTable :=
  match rt.root.findNode ni.id with
  | some _ =>
    let root2 := rt.root.updateNode ni.id
      (fun n => { n with failedResponses := n.failedResponses + 1 })
    { rt with root := root2 }
  | none => rt

/-- `closest(id, n)`: all contacts sorted by XOR distance (stable sort, as
V8's `Array.prototype.sort`), first `n`, as `NodeInfo`s. -/
def closestNodes (rt : RoutingTable) (id : List Nat) (n : Nat) : List NodeInfo :=
  (((rt.root.allContacts).mergeSort
      fun a b => distance id a.id ≤ distance id b.id).take n).map RNode.toNodeInfo

/-! ## Iterative lookup engine (`DHT.prototype.closest_`) -/

/-- The fields of an inbound KRPC response `r` that the lookup engine and
its callbacks consult: the responder's claimed id, the optional write
token, the decoded `nodes` list, and the BEP-44 payload fields. -/
structure LookupResp where
  rid : List Nat := []
  rtoken : Option (List Nat) := none
  rnodes : Option (List NodeInfo) := none
  rv : Option (List Nat) := none
  rseq : Option Nat := none
  deriving Repr, DecidableEq

/-- The outcome of one `rpc_.query`: a response, or any failure (timeout,
remote `y='e'`, socket error) — the `catch` in `query` turns all of those
into an `{error}` value, which the lookup engine skips over. -/
inductive QueryOutcome where
  | error
  | ok (r : LookupResp)
  deriving Repr, DecidableEq

/-- A pending future in the `PromiseSelector`: the pre-resolved seed entry
carrying the routing table's closest set, or an in-flight `query(p, …)`. -/
inductive LFuture where
  | seed (ns : List NodeInfo)
  | query (p : NodeInfo)
  deriving Repr, DecidableEq

/-- Resolve one future against the network: `none` models a `{error}`
resolution, otherwise the `{node, r}` value, where the node is
`makeNodeInfo(r.id, rinfo, r.token)` — claimed id and token from the reply,
transport address from the datagram. -/
def resolveFuture (net : NodeInfo → QueryOutcome) : LFuture → Option (Option NodeInfo × LookupResp)
  | .seed ns => some (none, { rnodes := some ns })
  | .query p =>
    match net p with
    | .error => none
    | .ok r => some (some { id := r.rid, address := p.address, port := p.port, token := r.rtoken }, r)

/-- The `seen` hash `` `${node.id.toString('hex')}:${node.address}:${node.port}` ``,
modelled as the triple (hex is injective on byte lists and the address,
a dotted quad, contains no `:`). -/
def seenKey (p : NodeInfo) : List Nat × List Nat × Nat := (p.id, p.address, p.port)

/-- The lookup engine's loop state: the closest-K priority queue, the
`seen` set, the selector's pending futures (FIFO in resolution order), and
— as instrumentation for stating theorems — the trace of `(r, node)`
response pairs processed so far. -/
structure LookupState (V : Type) where
  closest : List (PQSlot NodeInfo)
  seen : List (List Nat × List Nat × Nat)
  queue : List LFuture
  trace : List (LookupResp × NodeInfo)

/-- The `while (res = await selector.next())` loop of `closest_`, on fuel.
Futures resolve in FIFO order (the deterministic schedule in which each
response arrives in the order its query was issued); `none` = out of fuel.
On drain the JS function falls out of the loop and returns `undefined`
(`none`), discarding its `closest` queue. -/
def closestLoop {V : Type} (net : NodeInfo → QueryOutcome)
    (f : LookupResp → NodeInfo → Option V) (target : List Nat) :
    Nat → LookupState V → Option (Option V × LookupState V)
  | 0, _ => none
  | fuel + 1, st =>
    match st.queue with
    | [] => some (none, st)
    | fut :: rest =>
      match resolveFuture net fut with
      | none => closestLoop net f target fuel { st with queue := rest }
      | some (ndOpt, r) =>
        match ndOpt with
        | some nd =>
          match f r nd with
          | some v => some (some v, { st with queue := rest, trace := st.trace ++ [(r, nd)] })
          | none =>
            let cl := pqInsert (distance target nd.id) nd st.closest
            match r.rnodes with
            | none =>
              closestLoop net f target fuel
                { closest := cl, seen := st.seen, queue := rest,
                  trace := st.trace ++ [(r, nd)] }
            | some ns =>
              let candidates := ns.filter fun p =>
                !(st.seen.contains (seenKey p)) && pqLtMax (distance p.id target) cl
              closestLoop net f target fuel
                { closest := cl,
                  seen := st.seen ++ candidates.map seenKey,
                  queue := rest ++ candidates.map LFuture.query,
                  trace := st.trace ++ [(r, nd)] }
        | none =>
          match r.rnodes with
          | none => closestLoop net f target fuel { st with queue := rest }
          | some ns =>
            let candidates := ns.filter fun p =>
              !(st.seen.contains (seenKey p)) && pqLtMax (distance p.id target) st.closest
            closestLoop net f target fuel
              { st with
                seen := st.seen ++ candidates.map seenKey,
                queue := rest ++ candidates.map LFuture.query }

/-- `DHT.prototype.closest_(target, method, args, opt_rescb)`: seed the
selector with the routing table's closest-K set and run the loop.  The
`method`/`args` pair is absorbed into `net` (the network's response to
`query(p, method, args)`). -/
def closest_ (V : Type) (K : Nat) (rtClosest : List NodeInfo) (target : List Nat)
    (net : NodeInfo → QueryOutcome) (f : LookupResp → NodeInfo → Option V) (fuel : Nat) :
    Option (Option V × LookupState V) :=
  closestLoop net f target fuel
    { closest := pqInit NodeInfo K, seen := [], queue := [.seed rtClosest], trace := [] }

/-! ## Storage extension: inbound `put` (`src/storage.js`) -/

/-- The arguments of an inbound `put` query (`PutRequest`): absent dict
entries are `none`. -/
structure PutArgs where
  pid : List Nat := []
  k : Option (List Nat) := none
  salt : Option (List Nat) := none
  sig : Option (List Nat) := none
  seq : Option Nat := none
  v : List Nat := []
  token : List Nat := []
  deriving Repr, DecidableEq

/-- bencode of a byte string: `<decimal length>:<bytes>` (this is what
`bencode.encode` produces for a `Buffer`, as in `sha1(bencode.encode(v))`). -/
def benByteStr (b : List Nat) : List Nat := decDigits b.length ++ [58] ++ b

/-- bencode of a (non-negative) integer: `i<decimal>e`. -/
def benInt (n : Nat) : List Nat := [105] ++ decDigits n ++ [101]

/-- bencode of the dictionary `{seq, v, salt?}` (the `bencode` package
writes dictionary keys sorted, so `salt` < `seq` < `v`). -/
def bencodeSigDict (seq : Nat) (v : List Nat) (salt : Option (List Nat)) : List Nat :=
  [100] ++
    (match salt with
     | some s => asciiBytes "4:salt" ++ benByteStr s
     | none => []) ++
    asciiBytes "3:seq" ++ benInt seq ++
    asciiBytes "1:v" ++ benByteStr v ++ [101]

/-- `encodeSigData(msg)`: bencode `{seq: msg.seq || 0, v, salt?}` and strip
the outer `d`/`e` bytes (`.slice(1, -1)`). -/
def encodeSigData (seq : Option Nat) (v : List Nat) (salt : Option (List Nat)) : List Nat :=
  ((bencodeSigDict (seq.getD 0) v salt).drop 1).dropLast

/-- `DHTStorage.handlePutQuery_(args, node)`: derive the target, check the
write token, for mutable records check the ed25519 signature (`edVerify` is
the external `ed25519.verify`), and store the record.  The stored record's
`seq` comparison against a previously stored record is an unimplemented
`todo` in the source — the lookup `store_.get(target)` happens but its
result is unused.  Errors are the thrown messages (caught by
`handleQuery_`, which then sends no response). -/
def handlePutQuery_ (edVerify : List Nat → List Nat → List Nat → Bool)
    (dhtId : List Nat) (store : TSStore) (args : PutArgs) (node : NodeInfo) :
    Except (List Nat) (List Nat × TSStore) :=
  -- `const isMutable = args.sig !== undefined` — the two arms below
  match args.sig with
  | some sig =>
    match args.k with
    | none => .error (asciiBytes "TypeError")  -- sha1/concat of `undefined` throws
    | some k =>
      let target := sha1 (match args.salt with | some s => k ++ s | none => k)
      if !(verifyToken args.token target node) then .error (asciiBytes "Bad token")
      else if !(edVerify sig (encodeSigData args.seq args.v args.salt) k) then
        .error (asciiBytes "Bad signature")
      else
        -- `const last = this.store_.get(target); if (last) { /* todo verify
        -- seq and cas */ }` — the fetched record is not consulted
        let res := tokenStoreSet store target
          { k := some k, seq := args.seq.getD 0, sig := args.sig,
            salt := args.salt, v := args.v } node args.token
        if !res.1 then .error (asciiBytes "Could not write, token validation failed.")
        else .ok (dhtId, res.2)
  | none =>
    let target := sha1 (benByteStr args.v)
    if !(verifyToken args.token target node) then .error (asciiBytes "Bad token")
    else
      let res := tokenStoreSet store target { v := args.v } node args.token
      if !res.1 then .error (asciiBytes "Could not write, token validation failed.")
      else .ok (dhtId, res.2)

/-! ## Bucket-ping handoff (`DHT.prototype.handleBucketPing_` and
`RoutingTable._ping`) -/

/-- What `await this.ping(node)` settles to: the query's `{node, r}` value
when the peer answered, or the `{error}` value the `catch` in
`KRPCSocket.query` produces when it timed out or errored. -/
inductive PingQueryResult where
  | response (node : NodeInfo) (r : LookupResp)
  | errored
  deriving Repr, DecidableEq

/-- `handleBucketPing_`'s call of the routing-table callback:
`callback(!!res.error)` — the boolean handed back is *whether the query
failed*. -/
def handleBucketPing_ (res : PingQueryResult) : Bool :=
  match res with
  | .errored => true
  | .response _ _ => false

/-- The body of the callback `RoutingTable._ping` passes with its `ping`
event, when the host answers within the 5-second deadline: the parameter is
interpreted as "the contact responded" — it refreshes or penalises the
contact accordingly and becomes `_ping`'s result. -/
def pingCallbackUpdate (n : RNode) (now : Nat) (responded : Bool) : RNode × Bool :=
  if responded then ({ n with lastResponse := some now, failedResponses := 0 }, true)
  else ({ n with failedResponses := n.failedResponses + 1 }, false)

/-- Modelled from the claim's wording (spec side, for C6): the CRC32C input
`(uint32 of the four octets) & 0x030f3fff | (r << 29)` as a uint32, with the
four octet values already extracted. -/
def claimedSecureIdCrc (o0 o1 o2 o3 r : Nat) : Nat :=
  crc32c (word32ToBytesBE
    (((o0 * 0x1000000 + o1 * 0x10000 + o2 * 0x100 + o3) &&& 0x030f3fff) |||
      ((r <<< 29) % 2 ^ 32)))

/-! ## Concrete instances used by witnesses and counterexamples -/

/-- C1 failing input: target hash (20 zero bytes). -/
def cbTarget : List Nat := List.replicate 20 0

/-- C1 failing input: requesting node at `1.2.3.4:6881`. -/
def cbNode : NodeInfo :=
  { id := List.replicate 20 7, address := asciiBytes "1.2.3.4", port := 6881 }

/-- C1 failing input: a concrete value of the store's 10-byte secret. -/
def cbSecret : List Nat := List.replicate 10 1

/-- C7 witness inputs. -/
def w7target : List Nat := List.range 20

/-- C7 witness: the requester the token is issued to. -/
def w7node : NodeInfo :=
  { id := List.replicate 20 0xaa, address := asciiBytes "1.2.3.4", port := 6881 }

/-- C7 witness: a requester with a different IP address. -/
def w7node2 : NodeInfo :=
  { id := List.replicate 20 0xbb, address := asciiBytes "1.2.3.5", port := 6881 }

/-- Big-endian numeric value of a byte list (spec side, to state what a
"20-byte arithmetic midpoint" means). -/
def bytesToNatBE (l : List Nat) : Nat := l.foldl (fun a b => a * 256 + b) 0

/-- Big-endian bytes of a number at a fixed width (spec side). -/
def natToBytesBE : Nat → Nat → List Nat
  | 0, _ => []
  | w + 1, n => natToBytesBE w (n / 256) ++ [n % 256]

/-- Modelled from the claim's wording (spec side, for C5): "the 20-byte
arithmetic midpoint m = (min + max) / 2". -/
def arithmeticMidpoint (mn mx : List Nat) : List Nat :=
  natToBytesBE 20 ((bytesToNatBE mn + bytesToNatBE mx) / 2)

/-- C5: the root bucket's bounds. -/
def c5min : List Nat := List.replicate 20 0

/-- C5: the root bucket's upper bound. -/
def c5max : List Nat := List.replicate 20 0xff

/-- C5: a contact whose id starts with byte `0x81` — numerically above the
byte-wise midpoint `0x8080…80`, yet sent to the *left* child because the JS
comparison decodes both buffers to U+FFFD-led strings. -/
def c5node81 : RNode := { id := 0x81 :: List.replicate 19 0, address := [], port := 0 }

/-- C3: the only contact the routing table knows. -/
def c3A : NodeInfo := { id := List.replicate 20 0xAA, address := asciiBytes "10.0.0.1", port := 7001 }

/-- C3: lookup target. -/
def c3target : List Nat := List.replicate 20 0

/-- C3: the network — node A answers (without further nodes), everyone else
errors. -/
def c3net : NodeInfo → QueryOutcome :=
  fun p => if p.id == c3A.id then .ok { rid := c3A.id, rnodes := none } else .error

/-- C3: a per-response callback that never matches. -/
def c3f : LookupResp → NodeInfo → Option (List NodeInfo) := fun _ _ => none

/-- C2: the mutable record's 32-byte public key. -/
def c2k : List Nat := List.replicate 32 9

/-- C2: the target, SHA-1 of the key (no salt). -/
def c2target : List Nat := sha1 c2k

/-- C2: the requesting node. -/
def c2node : NodeInfo := { id := List.replicate 20 3, address := asciiBytes "9.8.7.6", port := 1000 }

/-- C2: a valid write token for `(target, requester)`. -/
def c2token : List Nat := getWriteToken c2target c2node

/-- C2: the receiving node's DHT id. -/
def c2dhtId : List Nat := List.replicate 20 1

/-- C2: the record already stored, with `seq = 5`. -/
def c2oldRec : StoreRecord :=
  { k := some c2k, seq := 5, sig := some (List.replicate 64 2), v := asciiBytes "old" }

/-- C2: the store before the put. -/
def c2store0 : TSStore := [(c2target, c2oldRec)]

/-- C2: an inbound mutable put with the *lower* `seq = 3` and a valid token. -/
def c2args : PutArgs :=
  { pid := List.replicate 20 3, k := some c2k, sig := some (List.replicate 64 4),
    seq := some 3, v := asciiBytes "new", token := c2token }

/-- C2: the record the handler ends up storing (seq 3). -/
def c2newRec : StoreRecord :=
  { k := some c2k, seq := 3, sig := some (List.replicate 64 4), v := asciiBytes "new" }

/-- C4: a routing table whose root holds two contacts (`K = 2`, so it is
full), whose left child leaf is full with contact `D` (already at 3 failed
responses) before contact `C`, and whose local id keeps the split condition
false for that leaf. -/
def c4min : List Nat := List.replicate 20 0
def c4max : List Nat := List.replicate 20 0xff
def c4midB : List Nat := List.replicate 20 0x80
def c4localId : List Nat := [0xEF, 0xBF, 0xBF] ++ List.replicate 17 0
def c4X : RNode := { id := List.replicate 20 1, address := [], port := 1 }
def c4Y : RNode := { id := List.replicate 20 2, address := [], port := 2 }
def c4D : RNode := { id := List.replicate 20 4, address := [], port := 4, failedResponses := 3 }
def c4C : RNode := { id := List.replicate 20 5, address := [], port := 5 }
def c4N : NodeInfo := { id := List.replicate 20 6, address := [], port := 6 }

def c4rt0 : RoutingTable :=
  { localId := c4localId, K := 2,
    root := .node c4min c4max 100 [c4X, c4Y]
      (.leaf c4min c4midB 100 [c4D, c4C])
      (.leaf c4midB c4max 100 []) }

def c4pipeline : Option (RoutingTable × List (List Nat)) :=
  match recordResponse c4rt0 c4C.toNodeInfo 1000 (fun _ => none) 10 with
  | none => none
  | some (rt1, _) =>
    let rt3 := recordNoResponse (recordNoResponse (recordNoResponse rt1
      c4C.toNodeInfo) c4C.toNodeInfo) c4C.toNodeInfo
    recordResponse rt3 c4N 2000 (fun _ => none) 10

/-! ## Claim theorems -/

set_option maxRecDepth 100000

/-- Helper: a key filtered out of the pending-ping book is no longer found. -/
theorem find?_key_filter_ne (l : List (List Nat × Nat)) (k : List Nat) :
    (l.filter fun e => !(e.1 == k)).find? (fun e => e.1 == k) = none := by
  rw [List.find?_eq_none]
  intro a ha
  have h := List.of_mem_filter ha
  simpa using h

/-- C1.  The claim says the issued write token is
SHA-1(target ‖ requester-IP ‖ rotating-secret).  The source's
`getWriteToken` hashes only `target ‖ requester-IP`: the `secret_` field the
constructor creates and rotates every 10 minutes is never read again, so at
the concrete failing input the issued token differs from the claimed
SHA-1(target ‖ IP ‖ secret) (with the secret taken as 10 `0x01` bytes). -/
theorem getWriteToken_omits_secret :
    getWriteToken cbTarget cbNode ≠ specWriteTokenWithSecret cbTarget cbNode cbSecret := by
  decide

/-- C7.  Verifying a freshly issued token for `(target, n)` against the same
pair succeeds; against a requester with a different IP it fails, provided
SHA-1 does not collide on the two distinct `target ‖ address` strings (the
collision-freeness the scheme relies on, stated as a hypothesis and
discharged by computation in the witness). -/
theorem token_verify_bound_to_ip (target : List Nat) (n n2 : NodeInfo)
    (haddr : n.address ≠ n2.address)
    (hcoll : sha1 (target ++ n.address) ≠ sha1 (target ++ n2.address)) :
    verifyToken (getWriteToken target n) target n = true ∧
    verifyToken (getWriteToken target n) target n2 = false := by
  refine ⟨?_, ?_⟩
  · simp [verifyToken, bufEquals]
  · simp [verifyToken, bufEquals, getWriteToken]
    exact hcoll

/-- C7 witness: the round-trip law evaluated at a concrete target and two
requesters that differ only in their IP (`1.2.3.4` vs `1.2.3.5`). -/
theorem token_verify_bound_to_ip_witness :
    w7node.address ≠ w7node2.address ∧
    verifyToken (getWriteToken w7target w7node) w7target w7node = true ∧
    verifyToken (getWriteToken w7target w7node) w7target w7node2 = false :=
  ⟨by decide, token_verify_bound_to_ip w7target w7node w7node2 (by decide) (by decide)⟩

/-- C9.  The eviction-ping handoff: `handleBucketPing_` calls the routing
table's callback with `!!res.error` — `true` exactly when the underlying
ping query settled to an `{error}` value (peer did not respond), `false`
when the peer actually responded — while `RoutingTable._ping` interprets
that boolean as "the contact responded": on `true` it refreshes the contact
(`lastResponse := now`, `failedResponses := 0`) and resolves `true`, on
`false` it penalises the contact and resolves `false`. -/
theorem bucket_ping_callback_inversion :
    (∀ res : PingQueryResult, handleBucketPing_ res = true ↔ res = .errored) ∧
    (∀ (n : RNode) (now : Nat) (nd : NodeInfo) (r : LookupResp),
      pingCallbackUpdate n now (handleBucketPing_ .errored) =
        ({ n with lastResponse := some now, failedResponses := 0 }, true) ∧
      pingCallbackUpdate n now (handleBucketPing_ (.response nd r)) =
        ({ n with failedResponses := n.failedResponses + 1 }, false)) := by
  constructor
  · intro res; cases res <;> simp [handleBucketPing_]
  · intro n now nd r
    exact ⟨by simp [handleBucketPing_, pingCallbackUpdate],
           by simp [handleBucketPing_, pingCallbackUpdate]⟩

/-- C10.  `DHT.prototype.ping` deduplicates by `(address, port)`: a second
call while the first is unresolved returns the same pending promise and
registers no new query, and once the pending ping settles (its `.then`
removes the key) a new call issues a fresh query. -/
theorem ping_dedup_pending (book : PingBook) (addr : List Nat) (port f1 f2 f3 : Nat) :
    (dhtPing (dhtPing book addr port f1).2.1 addr port f2).1 = (dhtPing book addr port f1).1 ∧
    (dhtPing (dhtPing book addr port f1).2.1 addr port f2).2.2 = false ∧
    (dhtPing (dhtPing book addr port f1).2.1 addr port f2).2.1 = (dhtPing book addr port f1).2.1 ∧
    (dhtPing (pingSettled (dhtPing book addr port f1).2.1 addr port) addr port f3).2.2 = true := by
  rcases h : book.pending.find? (fun e => e.1 == pingKey addr port) with _ | e
  · -- no pending ping yet: the first call registers `(key, f1)`
    have happ : (book.pending ++ [(pingKey addr port, f1)]).find?
        (fun e => e.1 == pingKey addr port) = some (pingKey addr port, f1) := by
      rw [List.find?_append, h]
      simp
    have hf : List.find? (fun _ : List Nat × Nat => false) book.pending = none :=
      List.find?_eq_none.mpr (fun x _ => by simp)
    simp [dhtPing, h, happ, pingSettled, find?_key_filter_ne, hf]
  · -- a ping is already pending: both calls return it unchanged
    have hf : List.find? (fun _ : List Nat × Nat => false) book.pending = none :=
      List.find?_eq_none.mpr (fun x _ => by simp)
    simp [dhtPing, h, pingSettled, find?_key_filter_ne, hf]

/-- Helper: `parseInt` inverts JS decimal rendering for byte values. -/
theorem parseDec_decDigits (a : Nat) (ha : a < 256) : parseDecDigits (decDigits a) = a := by
  have hall : (List.range 256).all (fun x => parseDecDigits (decDigits x) == x) = true := by
    decide
  rw [List.all_eq_true] at hall
  have h := hall a (by rw [List.mem_range]; exact ha)
  simpa using h

theorem decDigits_no_dot (a : Nat) (ha : a < 256) : ∀ c ∈ decDigits a, c ≠ 46 := by
  have hall : (List.range 256).all (fun x => (decDigits x).all (fun c => !(c == 46))) = true := by
    decide
  rw [List.all_eq_true] at hall
  have h := hall a (by rw [List.mem_range]; exact ha)
  rw [List.all_eq_true] at h
  intro c hcm
  have := h c hcm
  simpa using this

theorem splitDots_no_dot (u : List Nat) (hu : ∀ c ∈ u, c ≠ 46) : splitDots u = [u] := by
  induction u with
  | nil => rfl
  | cons c cs ih =>
    have hc : c ≠ 46 := hu c (by simp)
    have ih2 := ih (fun x hx => hu x (by simp [hx]))
    simp [splitDots, hc, ih2]

theorem splitDots_append (u v : List Nat) (hu : ∀ c ∈ u, c ≠ 46) :
    splitDots (u ++ 46 :: v) = u :: splitDots v := by
  induction u with
  | nil => simp [splitDots]
  | cons c cs ih =>
    have hc : c ≠ 46 := hu c (by simp)
    have ih2 := ih (fun x hx => hu x (by simp [hx]))
    simp [splitDots, hc, ih2]

theorem splitDots_ipDotted (a b c d : Nat) (ha : a < 256) (hb : b < 256)
    (hc : c < 256) (hd : d < 256) :
    splitDots (ipDotted a b c d) = [decDigits a, decDigits b, decDigits c, decDigits d] := by
  unfold ipDotted
  have h1 : decDigits a ++ [46] ++ decDigits b ++ [46] ++ decDigits c ++ [46] ++ decDigits d
      = decDigits a ++ 46 :: (decDigits b ++ 46 :: (decDigits c ++ 46 :: decDigits d)) := by
    simp [List.append_assoc]
  rw [h1, splitDots_append _ _ (decDigits_no_dot a ha),
      splitDots_append _ _ (decDigits_no_dot b hb),
      splitDots_append _ _ (decDigits_no_dot c hc),
      splitDots_no_dot _ (decDigits_no_dot d hd)]

theorem compact_node_info_roundtrip (id : List Nat) (a b c d port : Nat)
    (hid : id.length = 20) (ha : a < 256) (hb : b < 256) (hc : c < 256) (hd : d < 256)
    (hport : port < 65536) :
    (encodeCompactNodeInfo { id := id, address := ipDotted a b c d, port := port }).length = 26 ∧
    decodeCompactNodeInfo
        (encodeCompactNodeInfo { id := id, address := ipDotted a b c d, port := port }) =
      { id := id, address := ipDotted a b c d, port := port, token := none } := by
  have hdiv : port / 256 < 256 := by omega
  have htake : (id ++ List.replicate 20 0).take 20 = id := by
    rw [← hid]; exact List.take_left id _
  have henc : encodeCompactNodeInfo { id := id, address := ipDotted a b c d, port := port }
      = id ++ [a, b, c, d, port / 256, port % 256] := by
    unfold encodeCompactNodeInfo
    simp only [htake, splitDots_ipDotted a b c d ha hb hc hd, List.map,
      parseDec_decDigits a ha, parseDec_decDigits b hb, parseDec_decDigits c hc,
      parseDec_decDigits d hd, List.getD_cons_zero, List.getD_cons_succ]
    rw [Nat.mod_eq_of_lt ha, Nat.mod_eq_of_lt hb, Nat.mod_eq_of_lt hc, Nat.mod_eq_of_lt hd,
        Nat.mod_eq_of_lt hdiv]
    simp
  refine ⟨by rw [henc]; simp [hid], ?_⟩
  rw [henc]
  unfold decodeCompactNodeInfo
  have htake2 : (id ++ [a, b, c, d, port / 256, port % 256]).take 20 = id := by
    rw [← hid]; exact List.take_left id _
  rw [htake2]
  have hgd : ∀ k, (id ++ [a, b, c, d, port / 256, port % 256]).getD (20 + k) 0 =
      [a, b, c, d, port / 256, port % 256].getD k 0 := by
    intro k
    rw [List.getD_append_right]
    · rw [hid]; simp
    · omega
  have h20 := hgd 0
  have h21 := hgd 1
  have h22 := hgd 2
  have h23 := hgd 3
  have h24 := hgd 4
  have h25 := hgd 5
  norm_num at h20 h21 h22 h23 h24 h25 ⊢
  rw [h20, h21, h22, h23, h24, h25]
  refine ⟨rfl, by omega⟩

theorem land_lor_low3_keeps_high5 (x y : Nat) :
    ((x &&& 0xf8) ||| (y &&& 7)) &&& 0xf8 = x &&& 0xf8 := by
  apply Nat.eq_of_testBit_eq
  intro i
  simp only [Nat.testBit_land, Nat.testBit_lor]
  have h78 : ((7 : Nat).testBit i && (0xf8 : Nat).testBit i) = false := by
    by_cases h : i < 8
    · interval_cases i <;> decide
    · have h2 : (0xf8 : Nat).testBit i = false := by
        apply Nat.testBit_eq_false_of_lt
        calc (0xf8 : Nat) < 2 ^ 8 := by norm_num
        _ ≤ 2 ^ i := Nat.pow_le_pow_right (by norm_num) (by omega)
      simp [h2]
    
  cases hx : x.testBit i <;> cases hy : y.testBit i <;>
    cases h2 : (0xf8 : Nat).testBit i <;> cases h7 : (7 : Nat).testBit i <;>
    simp_all

theorem lor_b8_div16 (y : Nat) (hy : y ≤ 7) : (0xb8 ||| y) / 16 = 11 := by
  interval_cases y <;> decide


theorem computeSecureNodeId_spec
    (ip : List Nat) (r : Nat) (rnd : Nat → Nat) (p0 p1 p2 p3 : List Nat)
    (hsplit : splitDots ip = [p0, p1, p2, p3]) (hr : r < 256) :
    (computeSecureNodeId ip r rnd).length = 20 ∧
    (computeSecureNodeId ip r rnd).getD 0 0 =
      (claimedSecureIdCrc (jsStrToUint8 p0) (jsStrToUint8 p1) (jsStrToUint8 p2)
        (jsStrToUint8 p3) r >>> 24) &&& 0xff ∧
    (computeSecureNodeId ip r rnd).getD 1 0 =
      (claimedSecureIdCrc (jsStrToUint8 p0) (jsStrToUint8 p1) (jsStrToUint8 p2)
        (jsStrToUint8 p3) r >>> 16) &&& 0xff ∧
    (computeSecureNodeId ip r rnd).getD 2 0 &&& 0xf8 =
      (claimedSecureIdCrc (jsStrToUint8 p0) (jsStrToUint8 p1) (jsStrToUint8 p2)
        (jsStrToUint8 p3) r >>> 8) &&& 0xf8 ∧
    (computeSecureNodeId ip r rnd).getD 19 0 = r ∧
    (∀ rnd2 : Nat → Nat,
      (computeSecureNodeId (asciiBytes "124.31.75.21") 1 rnd2).getD 0 0 = 0x5f ∧
      (computeSecureNodeId (asciiBytes "124.31.75.21") 1 rnd2).getD 1 0 = 0xbf ∧
      (computeSecureNodeId (asciiBytes "124.31.75.21") 1 rnd2).getD 2 0 / 16 = 0xb ∧
      (computeSecureNodeId (asciiBytes "124.31.75.21") 1 rnd2).getD 19 0 = 1) := by
  have hr16 : List.range 16 = [0,1,2,3,4,5,6,7,8,9,10,11,12,13,14,15] := by rfl
  refine ⟨?_, ?_, ?_, ?_, ?_, ?_⟩
  · unfold computeSecureNodeId
    rw [hsplit]
    simp [hr16]
  · unfold computeSecureNodeId claimedSecureIdCrc
    rw [hsplit]
    simp [List.getD]
  · unfold computeSecureNodeId claimedSecureIdCrc
    rw [hsplit]
    simp [List.getD]
  · unfold computeSecureNodeId claimedSecureIdCrc
    rw [hsplit]
    simp only [List.map, List.getD_cons_zero, List.getD_cons_succ]
    exact land_lor_low3_keeps_high5 _ _
  · unfold computeSecureNodeId
    rw [hsplit]
    simp [hr16, List.getD, Nat.mod_eq_of_lt hr]
  · intro rnd2
    refine ⟨by rfl, by rfl, ?_, by rfl⟩
    have h2 : (computeSecureNodeId (asciiBytes "124.31.75.21") 1 rnd2).getD 2 0 =
        0xb8 ||| (rnd2 0 &&& 7) := by rfl
    rw [h2]
    exact lor_b8_div16 _ Nat.and_le_right
/-- C8.  Compact node info: encoding a valid (20-byte id, canonical
dotted-quad IPv4, 16-bit port) tuple yields 26 bytes, and decoding them
returns the original tuple. -/
theorem compact_roundtrip_is_id (id : List Nat) (a b c d port : Nat)
    (hid : id.length = 20) (ha : a < 256) (hb : b < 256) (hc : c < 256) (hd : d < 256)
    (hport : port < 65536) :
    (encodeCompactNodeInfo { id := id, address := ipDotted a b c d, port := port }).length = 26 ∧
    decodeCompactNodeInfo
        (encodeCompactNodeInfo { id := id, address := ipDotted a b c d, port := port }) =
      { id := id, address := ipDotted a b c d, port := port, token := none } :=
  compact_node_info_roundtrip id a b c d port hid ha hb hc hd hport

/-- C8 witness: the round trip evaluated at a concrete node
(`192.168.1.42:6881`, id = bytes 0..19). -/
theorem compact_roundtrip_is_id_witness :
    decodeCompactNodeInfo (encodeCompactNodeInfo
        { id := List.range 20, address := ipDotted 192 168 1 42, port := 6881 }) =
      { id := List.range 20, address := ipDotted 192 168 1 42, port := 6881, token := none } :=
  (compact_roundtrip_is_id (List.range 20) 192 168 1 42 6881 (by decide) (by decide)
    (by decide) (by decide) (by decide) (by decide)).2

/-- C6 witness: the secure-id theorem applied at `('124.31.75.21', r = 1)`
with the random stream constantly 0: the hypotheses hold by computation and
byte 0 comes out as the claimed CRC byte; combined with the vector conjunct
this pins hex prefix `5fbfb` and byte 19 = 1. -/
theorem computeSecureNodeId_spec_witness :
    splitDots (asciiBytes "124.31.75.21") = [[49, 50, 52], [51, 49], [55, 53], [50, 49]] ∧
    (computeSecureNodeId (asciiBytes "124.31.75.21") 1 (fun _ => 0)).getD 0 0 =
      (claimedSecureIdCrc (jsStrToUint8 [49, 50, 52]) (jsStrToUint8 [51, 49])
        (jsStrToUint8 [55, 53]) (jsStrToUint8 [50, 49]) 1 >>> 24) &&& 0xff ∧
    (computeSecureNodeId (asciiBytes "124.31.75.21") 1 (fun _ => 0)).getD 19 0 = 1 :=
  ⟨by decide,
   (computeSecureNodeId_spec (asciiBytes "124.31.75.21") 1 (fun _ => 0)
     [49, 50, 52] [51, 49] [55, 53] [50, 49] (by decide) (by decide)).2.1,
   (computeSecureNodeId_spec (asciiBytes "124.31.75.21") 1 (fun _ => 0)
     [49, 50, 52] [51, 49] [55, 53] [50, 49] (by decide) (by decide)).2.2.2.2.1⟩

/-- C5 counterexample.  At the root bucket `[00…00, ff…ff)` the source's
`mid` yields the byte-wise value `0x8080…80`, not the arithmetic midpoint
`0x7fff…ff`; moreover the split sends the contact with id `0x8100…00` —
numerically at or above the midpoint, so belonging to the right child's
range — into the *left* child, because `node.id < c` compares the buffers
as UTF-8-decoded strings. -/
theorem split_midpoint_counterexample :
    mid c5min c5max ≠ arithmeticMidpoint c5min c5max ∧
    bucketSplit c5min c5max 0 1 [c5node81] =
      some (.node c5min c5max 0 []
        (.leaf c5min (mid c5min c5max) 1 [c5node81])
        (.leaf (mid c5min c5max) c5max 1 [])) ∧
    bytesToNatBE (mid c5min c5max) ≤ bytesToNatBE c5node81.id := by
  refine ⟨by decide, by decide, by decide⟩

/-- C5 (amended).  `_split` computes the byte-wise midpoint `mid`; it fails
exactly when that midpoint equals either bound; on success it produces the
two child leaves `[min, m)` and `[m, max)` with `lastChanged = now`, empties
the parent's contact list, and distributes each contact to the left child
exactly when its id precedes `m` in the string-coerced buffer order,
preserving the contacts as a whole (a permutation). -/
theorem bucketSplit_spec (mn mx : List Nat) (lc now : Nat) (cs : List RNode) :
    (bucketSplit mn mx lc now cs = none ↔ (mid mn mx = mn ∨ mid mn mx = mx)) ∧
    (∀ b, bucketSplit mn mx lc now cs = some b →
      b = .node mn mx lc []
        (.leaf mn (mid mn mx) now (cs.filter fun n => bufLtJS n.id (mid mn mx)))
        (.leaf (mid mn mx) mx now (cs.filter fun n => !bufLtJS n.id (mid mn mx))) ∧
      ((cs.filter fun n => bufLtJS n.id (mid mn mx)) ++
        (cs.filter fun n => !bufLtJS n.id (mid mn mx))).Perm cs) := by
  constructor
  · unfold bucketSplit
    by_cases h : (bufEquals (mid mn mx) mn || bufEquals (mid mn mx) mx) = true
    · simp only [h, if_true]
      simp [bufEquals] at h
      simpa using h
    · simp only [h, if_false]
      simp [bufEquals] at h
      simp
      tauto
  · intro b hb
    unfold bucketSplit at hb
    by_cases h : (bufEquals (mid mn mx) mn || bufEquals (mid mn mx) mx) = true
    · simp [h] at hb
    · simp only [h] at hb
      simp at hb
      refine ⟨hb.symm, ?_⟩
      exact List.filter_append_perm _ cs

/-- C5 witness: the split law applied at the root bucket holding the
`0x8100…00` contact — the redistribution preserves the contact multiset. -/
theorem bucketSplit_spec_witness :
    ((List.filter (fun n => bufLtJS n.id (mid c5min c5max)) [c5node81]) ++
      (List.filter (fun n => !bufLtJS n.id (mid c5min c5max)) [c5node81])).Perm [c5node81] :=
  ((bucketSplit_spec c5min c5max 0 1 [c5node81]).2
    (.node c5min c5max 0 []
      (.leaf c5min (mid c5min c5max) 1 [c5node81])
      (.leaf (mid c5min c5max) c5max 1 []))
    (by decide)).2

/-- Helper: whatever the loop state, a terminating run of `closestLoop`
extends the trace by some suffix and returns exactly the first non-null
callback value over that suffix (or `none` when there is none). -/
theorem closestLoop_trace {V : Type} (net : NodeInfo → QueryOutcome)
    (f : LookupResp → NodeInfo → Option V) (target : List Nat) :
    ∀ (fuel : Nat) (st : LookupState V) (res : Option V × LookupState V),
      closestLoop net f target fuel st = some res →
      ∃ dlt, res.2.trace = st.trace ++ dlt ∧
        res.1 = (dlt.filterMap (fun p => f p.1 p.2)).head? := by
  intro fuel
  induction fuel with
  | zero => intro st res h; simp [closestLoop] at h
  | succ n ih =>
    intro st res h
    obtain ⟨cl, seen, queue, trace⟩ := st
    rcases queue with _ | ⟨fut, rest⟩
    · -- selector drained: the loop exits and returns undefined
      simp only [closestLoop] at h
      injection h with h
      subst h
      exact ⟨[], by simp, by simp⟩
    · rcases hr : resolveFuture net fut with _ | ⟨ndOpt, r⟩
      · -- {error} resolution: skipped, nothing recorded
        simp only [closestLoop, hr] at h
        obtain ⟨dlt, h1, h2⟩ := ih _ _ h
        exact ⟨dlt, by simpa using h1, h2⟩
      · rcases ndOpt with _ | nd
        · -- the pre-resolved seed: only its nodes are consumed
          rcases hn : r.rnodes with _ | ns
          · simp only [closestLoop, hr, hn] at h
            obtain ⟨dlt, h1, h2⟩ := ih _ _ h
            exact ⟨dlt, by simpa using h1, h2⟩
          · simp only [closestLoop, hr, hn] at h
            obtain ⟨dlt, h1, h2⟩ := ih _ _ h
            exact ⟨dlt, by simpa using h1, h2⟩
        · rcases hf : f r nd with _ | v
          · -- callback returned null: the response joins the trace
            rcases hn : r.rnodes with _ | ns
            · simp only [closestLoop, hr, hf, hn] at h
              obtain ⟨dlt, h1, h2⟩ := ih _ _ h
              refine ⟨(r, nd) :: dlt, ?_, ?_⟩
              · simpa [List.append_assoc] using h1
              · simpa [hf] using h2
            · simp only [closestLoop, hr, hf, hn] at h
              obtain ⟨dlt, h1, h2⟩ := ih _ _ h
              refine ⟨(r, nd) :: dlt, ?_, ?_⟩
              · simpa [List.append_assoc] using h1
              · simpa [hf] using h2
          · -- callback returned a value: the loop returns it at once
            simp only [closestLoop, hr, hf] at h
            injection h with h
            subst h
            exact ⟨[(r, nd)], by simp, by simp [hf]⟩

/-- C3 (amended).  A terminating run of `closest_` returns the first
non-null value the per-response callback produced over the processed
responses — and `none` (JS `undefined`) otherwise: on drain the closest-K
queue is *not* returned (callers that need it, like `announce_peer`/`put`,
rebuild it through the callback's side effects). -/
theorem closest_first_match_or_undefined (V : Type) (K : Nat) (seedNodes : List NodeInfo)
    (target : List Nat) (net : NodeInfo → QueryOutcome) (f : LookupResp → NodeInfo → Option V)
    (fuel : Nat) (res : Option V × LookupState V)
    (h : closest_ V K seedNodes target net f fuel = some res) :
    res.1 = (res.2.trace.filterMap (fun p => f p.1 p.2)).head? := by
  obtain ⟨dlt, h1, h2⟩ := closestLoop_trace net f target fuel _ res h
  simp at h1
  rw [h2, h1]

/-- C3 counterexample.  A drained lookup (one responding node, callback
never matching) returns `undefined` even though its fully-drained closest-K
set is the non-empty `[c3A]` — the claim says the lookup returns that set. -/
theorem closest_drain_counterexample :
    (closest_ (List NodeInfo) 2 [c3A] c3target c3net c3f 10).map Prod.fst = some none ∧
    (closest_ (List NodeInfo) 2 [c3A] c3target c3net c3f 10).map
        (fun p => pqItems p.2.closest) = some [c3A] ∧
    (none : Option (List NodeInfo)) ≠ some [c3A] := by
  refine ⟨by decide, by decide, by decide⟩

/-- C3 witness: the amended law evaluated on the concrete drained run. -/
theorem closest_first_match_witness :
    ((closest_ (List NodeInfo) 2 [c3A] c3target c3net c3f 10).map Prod.fst) =
      ((closest_ (List NodeInfo) 2 [c3A] c3target c3net c3f 10).map
        (fun res => (res.2.trace.filterMap (fun p => c3f p.1 p.2)).head?)) := by
  rcases hrun : closest_ (List NodeInfo) 2 [c3A] c3target c3net c3f 10 with _ | res
  · rfl
  · simp [closest_first_match_or_undefined (List NodeInfo) 2 [c3A] c3target c3net c3f 10 res hrun]

/-- C2 counterexample.  The store holds a record with `seq = 5` for the
target; an inbound mutable put with `seq = 3`, a valid token and a
verifying signature (the ed25519 oracle answers true) is *accepted* — the
handler responds `{id}` and replaces the stored record with the `seq = 3`
one, where the claim demands rejection and an unchanged record. -/
theorem put_ignores_higher_stored_seq_counterexample :
    (tokenStoreGet c2store0 c2target).map StoreRecord.seq = some 5 ∧
    c2args.seq = some 3 ∧
    verifyToken c2args.token c2target c2node = true ∧
    (handlePutQuery_ (fun _ _ _ => true) c2dhtId c2store0 c2args c2node).toOption =
      some (c2dhtId, [(c2target, c2newRec)]) ∧
    (tokenStoreGet [(c2target, c2newRec)] c2target).map StoreRecord.seq = some 3 := by
  refine ⟨by decide, by decide, by decide, by decide, by decide⟩

/-- C2 (amended).  For every inbound mutable put whose token verifies
against `(target, sender-IP)` and whose signature verifies, the handler
accepts and stores the incoming record — whatever `seq` any previously
stored record carries (`store_.get(target)` is fetched but its result is
unused; the seq/cas comparison is an unimplemented `todo`). -/
theorem put_overwrites_regardless_of_seq
    (edVerify : List Nat → List Nat → List Nat → Bool) (dhtId : List Nat)
    (store : TSStore) (args : PutArgs) (node : NodeInfo) (sig k : List Nat)
    (hsig : args.sig = some sig) (hk : args.k = some k)
    (htok : verifyToken args.token
        (sha1 (match args.salt with | some s => k ++ s | none => k)) node = true)
    (hver : edVerify sig (encodeSigData args.seq args.v args.salt) k = true) :
    handlePutQuery_ edVerify dhtId store args node =
      .ok (dhtId, tsPut store (sha1 (match args.salt with | some s => k ++ s | none => k))
        { k := some k, seq := args.seq.getD 0, sig := args.sig,
          salt := args.salt, v := args.v }) := by
  unfold handlePutQuery_
  rw [hsig, hk]
  rcases hsalt : args.salt with _ | s <;>
    rw [hsalt] at htok hver <;>
    simp only [] at htok <;>
    simp [htok, hver, tokenStoreSet]

/-- C2 witness: the amended law evaluated at the concrete lower-`seq` put
over the `seq = 5` store. -/
theorem put_overwrites_regardless_of_seq_witness :
    handlePutQuery_ (fun _ _ _ => true) c2dhtId c2store0 c2args c2node =
      .ok (c2dhtId, tsPut c2store0 (sha1 c2k) c2newRec) :=
  put_overwrites_regardless_of_seq (fun _ _ _ => true) c2dhtId c2store0 c2args c2node
    (List.replicate 64 4) c2k rfl rfl (by decide) rfl

/-! ### Bucket-shape lemmas for the eviction path of `_insertNode` (C4) -/

theorem updateById_cons (a : RNode) (t : List RNode) (i : List Nat) (f : RNode → RNode) :
    updateById (a :: t) i f = (if a.id == i then f a else a) :: updateById t i f := rfl

theorem updateById_ne (cs : List RNode) (i : List Nat) (f : RNode → RNode)
    (h : ∀ x ∈ cs, (x.id == i) = false) : updateById cs i f = cs := by
  induction cs with
  | nil => rfl
  | cons a t ih =>
    have ha := h a (by simp)
    have ht := ih (fun x hx => h x (by simp [hx]))
    have hneg : ¬ ((a.id == i) = true) := by simp [ha]
    rw [updateById_cons, if_neg hneg, ht]

theorem updateNode_ne (t : BucketT) (i : List Nat) (f : RNode → RNode)
    (h : ∀ x ∈ t.allContacts, (x.id == i) = false) : t.updateNode i f = t := by
  induction t with
  | leaf mn mx lc cs =>
    simp only [BucketT.updateNode]
    rw [updateById_ne]
    intro x hx
    exact h x (by simpa [BucketT.allContacts] using hx)
  | node mn mx lc cs l r ihl ihr =>
    simp only [BucketT.updateNode]
    rw [updateById_ne, ihl, ihr]
    · intro x hx; exact h x (by simp [BucketT.allContacts, hx])
    · intro x hx; exact h x (by simp [BucketT.allContacts, hx])
    · intro x hx; exact h x (by simp [BucketT.allContacts, hx])

theorem find?_id_ne (cs : List RNode) (i : List Nat)
    (h : ∀ x ∈ cs, (x.id == i) = false) : cs.find? (fun n => n.id == i) = none :=
  List.find?_eq_none.mpr (fun x hx => by simp [h x hx])

theorem updateById_append (a b : List RNode) (i : List Nat) (f : RNode → RNode) :
    updateById (a ++ b) i f = updateById a i f ++ updateById b i f := by
  simp [updateById]

theorem removeById_append_ne (a b : List RNode) (i : List Nat)
    (h : ∀ x ∈ a, (x.id == i) = false) : removeById (a ++ b) i = a ++ removeById b i := by
  induction a with
  | nil => rfl
  | cons x t ih =>
    have hx := h x (by simp)
    have hneg : ¬ ((x.id == i) = true) := by simp [hx]
    simp only [List.cons_append, removeById, if_neg hneg]
    rw [show t.append b = t ++ b from rfl, ih (fun y hy => h y (by simp [hy]))]

theorem findNode_shape (rmn rmx bmn bmx : List Nat) (rlc blc : Nat)
    (rcs pre post : List RNode) (R : BucketT) (c : RNode) (i : List Nat)
    (hc : (c.id == i) = true)
    (h1 : ∀ x ∈ rcs, (x.id == i) = false)
    (h2 : ∀ x ∈ pre, (x.id == i) = false) :
    (BucketT.node rmn rmx rlc rcs (.leaf bmn bmx blc (pre ++ c :: post)) R).findNode i
      = some c := by
  have hcons : List.find? (fun n => n.id == i) (c :: post) = some c :=
    List.find?_cons_of_pos _ hc
  have hpre : List.find? (fun n => n.id == i) (pre ++ c :: post) = some c := by
    rw [List.find?_append, find?_id_ne pre i h2, hcons]
    rfl
  unfold BucketT.findNode
  simp only [BucketT.allContacts]
  rw [List.find?_append, List.find?_append, find?_id_ne rcs i h1, hpre]
  rfl

theorem updateNode_shape (rmn rmx bmn bmx : List Nat) (rlc blc : Nat)
    (rcs pre post : List RNode) (R : BucketT) (c : RNode) (i : List Nat)
    (f : RNode → RNode)
    (hc : (c.id == i) = true)
    (h1 : ∀ x ∈ rcs, (x.id == i) = false)
    (h2 : ∀ x ∈ pre, (x.id == i) = false)
    (h3 : ∀ x ∈ post, (x.id == i) = false)
    (h4 : ∀ x ∈ R.allContacts, (x.id == i) = false) :
    (BucketT.node rmn rmx rlc rcs (.leaf bmn bmx blc (pre ++ c :: post)) R).updateNode i f
      = .node rmn rmx rlc rcs (.leaf bmn bmx blc (pre ++ f c :: post)) R := by
  simp only [BucketT.updateNode]
  rw [updateById_ne rcs i f h1, updateNode_ne R i f h4, updateById_append,
      updateById_ne pre i f h2, updateById_cons, if_pos hc, updateById_ne post i f h3]

theorem insertLoop_evicts_first_bad
    (K fl : Nat) (localId rmn rmx bmn bmx : List Nat) (rlc blc now2 : Nat)
    (rcs pre post : List RNode) (R : BucketT) (c3 nd : RNode)
    (pingO : List Nat → Option Bool)
    (hK : ¬ rcs.length < K)
    (hlen : ¬ (pre ++ c3 :: post).length < K)
    (hdir : bufLeJS nd.id bmx = true)
    (hns : (bufLeJS bmn localId && bufLtJS localId bmx) = false ∨
           bucketSplit bmn bmx blc now2 (pre ++ c3 :: post) = none)
    (hprebad : ∀ x ∈ pre, x.isBad = false)
    (hpreid : ∀ x ∈ pre, (x.id == c3.id) = false)
    (hbad : c3.isBad = true) :
    insertLoop K localId nd now2 pingO (fl + 2)
      (.node rmn rmx rlc rcs (.leaf bmn bmx blc (pre ++ c3 :: post)) R) =
      some (.node rmn rmx rlc rcs
        (.leaf bmn bmx now2 ((pre ++ post) ++ [nd])) R, []) := by
  have hsplit : (if bufLeJS bmn localId && bufLtJS localId bmx then
      bucketSplit bmn bmx blc now2 (pre ++ c3 :: post) else none) = none := by
    rcases hns with hcond | hnone
    · simp [hcond]
    · simp [hnone]
  have hfindbad : (pre ++ c3 :: post).find? RNode.isBad = some c3 := by
    rw [List.find?_append, List.find?_eq_none.mpr (fun x hx => by simp [hprebad x hx]),
        List.find?_cons_of_pos _ hbad]
    rfl
  have hremove : removeById (pre ++ c3 :: post) c3.id = pre ++ post := by
    rw [removeById_append_ne pre (c3 :: post) c3.id hpreid]
    simp [removeById]
  rw [insertLoop]
  simp only [BucketT.contacts, if_neg hK]
  simp only [if_pos hdir]
  rw [insertLoop]
  simp only [BucketT.contacts, if_neg hlen, hsplit, hfindbad, hremove]
  simp

theorem findNode_shape_none (rmn rmx bmn bmx : List Nat) (rlc blc : Nat)
    (rcs pre post : List RNode) (R : BucketT) (c : RNode) (i : List Nat)
    (hc : (c.id == i) = false)
    (h1 : ∀ x ∈ rcs, (x.id == i) = false)
    (h2 : ∀ x ∈ pre, (x.id == i) = false)
    (h3 : ∀ x ∈ post, (x.id == i) = false)
    (h4 : ∀ x ∈ R.allContacts, (x.id == i) = false) :
    (BucketT.node rmn rmx rlc rcs (.leaf bmn bmx blc (pre ++ c :: post)) R).findNode i
      = none := by
  unfold BucketT.findNode
  apply List.find?_eq_none.mpr
  intro x hx
  simp only [BucketT.allContacts, List.mem_append, List.mem_cons] at hx
  rcases hx with ((hx | (hx | hx | hx)) | hx)
  · simp [h1 x hx]
  · simp [h2 x hx]
  · subst hx; simp [hc]
  · simp [h3 x hx]
  · simp [h4 x hx]

theorem recordResponse_found_shape
    (localId : List Nat) (K fl : Nat)
    (rmn rmx bmn bmx : List Nat) (rlc blc : Nat)
    (rcs pre post : List RNode) (R : BucketT) (c : RNode) (ni : NodeInfo)
    (t1 : Nat) (pingO : List Nat → Option Bool)
    (hc : (c.id == ni.id) = true)
    (h1 : ∀ x ∈ rcs, (x.id == ni.id) = false)
    (h2 : ∀ x ∈ pre, (x.id == ni.id) = false)
    (h3 : ∀ x ∈ post, (x.id == ni.id) = false)
    (h4 : ∀ x ∈ R.allContacts, (x.id == ni.id) = false) :
    recordResponse
      ⟨localId, K, .node rmn rmx rlc rcs (.leaf bmn bmx blc (pre ++ c :: post)) R⟩
      ni t1 pingO fl =
      some (⟨localId, K, .node rmn rmx rlc rcs
        (.leaf bmn bmx blc
          (pre ++ { c with lastResponse := some t1, failedResponses := 0 } :: post)) R⟩,
        []) := by
  unfold recordResponse
  rw [show (⟨localId, K, .node rmn rmx rlc rcs (.leaf bmn bmx blc (pre ++ c :: post)) R⟩ :
    RoutingTable).root = .node rmn rmx rlc rcs (.leaf bmn bmx blc (pre ++ c :: post)) R
    from rfl]
  rw [findNode_shape rmn rmx bmn bmx rlc blc rcs pre post R c ni.id hc h1 h2]
  simp only []
  rw [updateNode_shape rmn rmx bmn bmx rlc blc rcs pre post R c ni.id _ hc h1 h2 h3 h4]

theorem recordNoResponse_shape
    (localId : List Nat) (K : Nat)
    (rmn rmx bmn bmx : List Nat) (rlc blc : Nat)
    (rcs pre post : List RNode) (R : BucketT) (c : RNode) (ni : NodeInfo)
    (hc : (c.id == ni.id) = true)
    (h1 : ∀ x ∈ rcs, (x.id == ni.id) = false)
    (h2 : ∀ x ∈ pre, (x.id == ni.id) = false)
    (h3 : ∀ x ∈ post, (x.id == ni.id) = false)
    (h4 : ∀ x ∈ R.allContacts, (x.id == ni.id) = false) :
    recordNoResponse
      ⟨localId, K, .node rmn rmx rlc rcs (.leaf bmn bmx blc (pre ++ c :: post)) R⟩ ni =
      ⟨localId, K, .node rmn rmx rlc rcs
        (.leaf bmn bmx blc
          (pre ++ { c with failedResponses := c.failedResponses + 1 } :: post)) R⟩ := by
  unfold recordNoResponse
  rw [show (⟨localId, K, .node rmn rmx rlc rcs (.leaf bmn bmx blc (pre ++ c :: post)) R⟩ :
    RoutingTable).root = .node rmn rmx rlc rcs (.leaf bmn bmx blc (pre ++ c :: post)) R
    from rfl]
  rw [findNode_shape rmn rmx bmn bmx rlc blc rcs pre post R c ni.id hc h1 h2]
  simp only []
  rw [updateNode_shape rmn rmx bmn bmx rlc blc rcs pre post R c ni.id _ hc h1 h2 h3 h4]

theorem recordResponse_evict_shape
    (localId : List Nat) (K fl : Nat)
    (rmn rmx bmn bmx : List Nat) (rlc blc t2 : Nat)
    (rcs pre post : List RNode) (R : BucketT) (c3 : RNode) (ni : NodeInfo)
    (pingO : List Nat → Option Bool)
    (hcn : (c3.id == ni.id) = false)
    (h1n : ∀ x ∈ rcs, (x.id == ni.id) = false)
    (h2n : ∀ x ∈ pre, (x.id == ni.id) = false)
    (h3n : ∀ x ∈ post, (x.id == ni.id) = false)
    (h4n : ∀ x ∈ R.allContacts, (x.id == ni.id) = false)
    (hprebad : ∀ x ∈ pre, x.isBad = false)
    (hpreid : ∀ x ∈ pre, (x.id == c3.id) = false)
    (hbad : c3.isBad = true)
    (hK : ¬ rcs.length < K)
    (hlen : ¬ (pre ++ c3 :: post).length < K)
    (hdir : bufLeJS ni.id bmx = true)
    (hns : (bufLeJS bmn localId && bufLtJS localId bmx) = false ∨
           bucketSplit bmn bmx blc t2 (pre ++ c3 :: post) = none) :
    recordResponse
      ⟨localId, K, .node rmn rmx rlc rcs (.leaf bmn bmx blc (pre ++ c3 :: post)) R⟩
      ni t2 pingO (fl + 2) =
      some (⟨localId, K, .node rmn rmx rlc rcs
        (.leaf bmn bmx t2
          ((pre ++ post) ++ [{ RNode.ofInfo ni with lastResponse := some t2 }])) R⟩,
        []) := by
  unfold recordResponse
  rw [show (⟨localId, K, .node rmn rmx rlc rcs (.leaf bmn bmx blc (pre ++ c3 :: post)) R⟩ :
    RoutingTable).root = .node rmn rmx rlc rcs (.leaf bmn bmx blc (pre ++ c3 :: post)) R
    from rfl]
  rw [findNode_shape_none rmn rmx bmn bmx rlc blc rcs pre post R c3 ni.id hcn h1n h2n h3n h4n]
  simp only []
  rw [insertLoop_evicts_first_bad K fl localId rmn rmx bmn bmx rlc blc t2 rcs pre post R
    c3 _ pingO hK hlen hdir hns hprebad hpreid hbad]
  rfl

/-- **C4.**  The claim promises: after `recordResponse(C)` and three
`recordNoResponse(C)`, the contact `C` is bad (`failed = 3 ≥ 3`), and
inserting a fresh contact into `C`'s full, unsplittable bucket replaces `C`
immediately without any ping.  What the code does — proved here — is
replace the *first* bad contact of the bucket (`cs.find(n => n.isBad)`),
which is `C` itself only when no contact before `C` in the bucket is bad
(hypothesis `hprebad`); the replacement is indeed immediate and pings
nothing. -/
theorem c4_record_then_insert
    (localId : List Nat) (K fl : Nat)
    (rmn rmx bmn bmx : List Nat) (rlc blc : Nat)
    (rcs pre post : List RNode) (R : BucketT) (C : RNode) (ni : NodeInfo)
    (t1 t2 : Nat) (pingO : List Nat → Option Bool)
    (h1c : ∀ x ∈ rcs, (x.id == C.id) = false)
    (h2c : ∀ x ∈ pre, (x.id == C.id) = false)
    (h3c : ∀ x ∈ post, (x.id == C.id) = false)
    (h4c : ∀ x ∈ R.allContacts, (x.id == C.id) = false)
    (h1n : ∀ x ∈ rcs, (x.id == ni.id) = false)
    (h2n : ∀ x ∈ pre, (x.id == ni.id) = false)
    (h3n : ∀ x ∈ post, (x.id == ni.id) = false)
    (h4n : ∀ x ∈ R.allContacts, (x.id == ni.id) = false)
    (hcn : (C.id == ni.id) = false)
    (hprebad : ∀ x ∈ pre, x.isBad = false)
    (hK : ¬ rcs.length < K)
    (hlen : ¬ (pre ++ C :: post).length < K)
    (hdir : bufLeJS ni.id bmx = true)
    (hns : (bufLeJS bmn localId && bufLtJS localId bmx) = false ∨
           (bufEquals (mid bmn bmx) bmn || bufEquals (mid bmn bmx) bmx) = true) :
    recordResponse
      ⟨localId, K, .node rmn rmx rlc rcs (.leaf bmn bmx blc (pre ++ C :: post)) R⟩
      C.toNodeInfo t1 pingO fl =
      some (⟨localId, K, .node rmn rmx rlc rcs
        (.leaf bmn bmx blc
          (pre ++ { C with lastResponse := some t1, failedResponses := 0 } :: post)) R⟩,
        []) ∧
    recordNoResponse (recordNoResponse (recordNoResponse
        ⟨localId, K, .node rmn rmx rlc rcs
          (.leaf bmn bmx blc
            (pre ++ { C with lastResponse := some t1, failedResponses := 0 } :: post)) R⟩
        C.toNodeInfo) C.toNodeInfo) C.toNodeInfo =
      ⟨localId, K, .node rmn rmx rlc rcs
        (.leaf bmn bmx blc
          (pre ++ { C with lastResponse := some t1, failedResponses := 3 } :: post)) R⟩ ∧
    ({ C with lastResponse := some t1, failedResponses := 3 } : RNode).isBad = true ∧
    recordResponse
      (⟨localId, K, .node rmn rmx rlc rcs
        (.leaf bmn bmx blc
          (pre ++ { C with lastResponse := some t1, failedResponses := 3 } :: post)) R⟩ :
        RoutingTable)
      ni t2 pingO (fl + 2) =
      some (⟨localId, K, .node rmn rmx rlc rcs
        (.leaf bmn bmx t2
          ((pre ++ post) ++ [{ RNode.ofInfo ni with lastResponse := some t2 }])) R⟩,
        []) := by
  have hcc : (C.id == C.id) = true := by simp
  refine ⟨?_, ?_, rfl, ?_⟩
  · exact recordResponse_found_shape localId K fl rmn rmx bmn bmx rlc blc rcs pre post R
      C C.toNodeInfo t1 pingO hcc h1c h2c h3c h4c
  · have e1 : recordNoResponse
        ⟨localId, K, .node rmn rmx rlc rcs
          (.leaf bmn bmx blc
            (pre ++ { C with lastResponse := some t1, failedResponses := 0 } :: post)) R⟩
        C.toNodeInfo =
        ⟨localId, K, .node rmn rmx rlc rcs
          (.leaf bmn bmx blc
            (pre ++ { C with lastResponse := some t1, failedResponses := 1 } :: post)) R⟩ :=
      recordNoResponse_shape localId K rmn rmx bmn bmx rlc blc rcs pre post R
        { C with lastResponse := some t1, failedResponses := 0 } C.toNodeInfo
        hcc h1c h2c h3c h4c
    have e2 : recordNoResponse
        ⟨localId, K, .node rmn rmx rlc rcs
          (.leaf bmn bmx blc
            (pre ++ { C with lastResponse := some t1, failedResponses := 1 } :: post)) R⟩
        C.toNodeInfo =
        ⟨localId, K, .node rmn rmx rlc rcs
          (.leaf bmn bmx blc
            (pre ++ { C with lastResponse := some t1, failedResponses := 2 } :: post)) R⟩ :=
      recordNoResponse_shape localId K rmn rmx bmn bmx rlc blc rcs pre post R
        { C with lastResponse := some t1, failedResponses := 1 } C.toNodeInfo
        hcc h1c h2c h3c h4c
    have e3 : recordNoResponse
        ⟨localId, K, .node rmn rmx rlc rcs
          (.leaf bmn bmx blc
            (pre ++ { C with lastResponse := some t1, failedResponses := 2 } :: post)) R⟩
        C.toNodeInfo =
        ⟨localId, K, .node rmn rmx rlc rcs
          (.leaf bmn bmx blc
            (pre ++ { C with lastResponse := some t1, failedResponses := 3 } :: post)) R⟩ :=
      recordNoResponse_shape localId K rmn rmx bmn bmx rlc blc rcs pre post R
        { C with lastResponse := some t1, failedResponses := 2 } C.toNodeInfo
        hcc h1c h2c h3c h4c
    rw [e1, e2, e3]
  · have hlen3 : ¬ (pre ++
        { C with lastResponse := some t1, failedResponses := 3 } :: post).length < K := by
      simpa using hlen
    have hns3 : (bufLeJS bmn localId && bufLtJS localId bmx) = false ∨
        bucketSplit bmn bmx blc t2
          (pre ++ { C with lastResponse := some t1, failedResponses := 3 } :: post) = none := by
      rcases hns with h | h
      · exact Or.inl h
      · exact Or.inr (by simp [bucketSplit, h])
    exact recordResponse_evict_shape localId K fl rmn rmx bmn bmx rlc blc t2 rcs pre post R
      { C with lastResponse := some t1, failedResponses := 3 } ni pingO
      hcn h1n h2n h3n h4n hprebad h2c rfl hK hlen3 hdir hns3

/-- C4, divergence witness: in the concrete table `c4rt0` the bucket holds
`D` (already bad) before `C`; after the record operations make `C` bad, the
insertion of a new contact evicts `D` and keeps the bad `C` — the claim's
"replaces C" does not hold, though no ping is issued. -/
theorem insert_evicts_other_bad_counterexample :
    c4pipeline =
      some ({ localId := c4localId, K := 2,
              root := .node c4min c4max 100 [c4X, c4Y]
                (.leaf c4min c4midB 2000
                  [{ c4C with lastResponse := some 1000, failedResponses := 3 },
                   { RNode.ofInfo c4N with lastResponse := some 2000 }])
                (.leaf c4midB c4max 100 []) }, []) ∧
    ({ c4C with lastResponse := some 1000, failedResponses := 3 } : RNode).isBad = true := by
  decide

/-- C4, concrete instance of `c4_record_then_insert`: a one-byte-id table
with an empty `pre` prefix, where the bad `C` itself is evicted. -/
theorem c4_record_then_insert_witness :
    (recordResponse
        ⟨[0x50], 2, .node [0] [0xff] 7
          [{ id := [0x20], address := [7], port := 3 }, { id := [0x30], address := [7], port := 4 }]
          (.leaf [0] [0x40] 8
            ([] ++ ({ id := [1], address := [7], port := 1 } : RNode) ::
              [{ id := [2], address := [7], port := 2 }]))
          (.leaf [0x40] [0xff] 9 [])⟩
        (RNode.toNodeInfo { id := [1], address := [7], port := 1 }) 100 (fun _ => none) 1 =
      some (⟨[0x50], 2, .node [0] [0xff] 7
          [{ id := [0x20], address := [7], port := 3 }, { id := [0x30], address := [7], port := 4 }]
          (.leaf [0] [0x40] 8
            ([] ++ ({ id := [1], address := [7], port := 1, lastResponse := some 100,
                        failedResponses := 0 } : RNode) ::
              [{ id := [2], address := [7], port := 2 }]))
          (.leaf [0x40] [0xff] 9 [])⟩, [])) ∧
    (recordNoResponse (recordNoResponse (recordNoResponse
        ⟨[0x50], 2, .node [0] [0xff] 7
          [{ id := [0x20], address := [7], port := 3 }, { id := [0x30], address := [7], port := 4 }]
          (.leaf [0] [0x40] 8
            ([] ++ ({ id := [1], address := [7], port := 1, lastResponse := some 100,
                        failedResponses := 0 } : RNode) ::
              [{ id := [2], address := [7], port := 2 }]))
          (.leaf [0x40] [0xff] 9 [])⟩
        (RNode.toNodeInfo { id := [1], address := [7], port := 1 }))
        (RNode.toNodeInfo { id := [1], address := [7], port := 1 }))
        (RNode.toNodeInfo { id := [1], address := [7], port := 1 }) =
      ⟨[0x50], 2, .node [0] [0xff] 7
          [{ id := [0x20], address := [7], port := 3 }, { id := [0x30], address := [7], port := 4 }]
          (.leaf [0] [0x40] 8
            ([] ++ ({ id := [1], address := [7], port := 1, lastResponse := some 100,
                        failedResponses := 3 } : RNode) ::
              [{ id := [2], address := [7], port := 2 }]))
          (.leaf [0x40] [0xff] 9 [])⟩) ∧
    ({ id := [1], address := [7], port := 1, lastResponse := some 100,
          failedResponses := 3 } : RNode).isBad = true ∧
    (recordResponse
        ⟨[0x50], 2, .node [0] [0xff] 7
          [{ id := [0x20], address := [7], port := 3 }, { id := [0x30], address := [7], port := 4 }]
          (.leaf [0] [0x40] 8
            ([] ++ ({ id := [1], address := [7], port := 1, lastResponse := some 100,
                        failedResponses := 3 } : RNode) ::
              [{ id := [2], address := [7], port := 2 }]))
          (.leaf [0x40] [0xff] 9 [])⟩
        ({ id := [3], address := [7], port := 5 } : NodeInfo) 200 (fun _ => none) (1 + 2) =
      some (⟨[0x50], 2, .node [0] [0xff] 7
          [{ id := [0x20], address := [7], port := 3 }, { id := [0x30], address := [7], port := 4 }]
          (.leaf [0] [0x40] 200
            (([] ++ [{ id := [2], address := [7], port := 2 }]) ++
              [{ RNode.ofInfo { id := [3], address := [7], port := 5 } with
                  lastResponse := some 200 }]))
          (.leaf [0x40] [0xff] 9 [])⟩, [])) :=
  c4_record_then_insert [0x50] 2 1 [0] [0xff] [0] [0x40] 7 8
    [{ id := [0x20], address := [7], port := 3 }, { id := [0x30], address := [7], port := 4 }]
    [] [{ id := [2], address := [7], port := 2 }] (.leaf [0x40] [0xff] 9 [])
    { id := [1], address := [7], port := 1 }
    { id := [3], address := [7], port := 5 }
    100 200 (fun _ => none)
    (by decide) (by decide) (by decide) (by decide)
    (by decide) (by decide) (by decide) (by decide)
    (by decide) (by decide) (by decide) (by decide)
    (by decide) (by decide)
